import Mathlib

/-!
SIM bootstrap retrieval and the ASN.1 header decoder.

A shallow embedding of `lib/sim_bootstrap/src/sim_bootstrap.c` and
`lib/pkcs15/src/asn1_decode.c`.

Conventions of the embedding:
* a C `int` is an `Int`, a `uint8_t` is a `Nat` below 256, `size_t` is a `Nat`;
* a byte buffer is a `List Nat`; a C string is the part of a buffer before its
  first NUL byte;
* the modem transport `nrf_modem_at_scanf` is external: it is a parameter, a
  function of its own state, the command text and the scan format, answering with
  a return code, the scanned length and the bytes it stores through `p_response`;
* the PKCS #15 path decoders are external as well and are parameters.
-/

namespace SimBootstrap

/-! ## C library helpers -/

/-- The value of `EINVAL`. -/
def EINVAL : Int := 22

/-- The value of `ENOENT`. -/
def ENOENT : Int := 2

/-- The constant `SIM_RECORD_BUFFER_MAX` of `sim_bootstrap.h`. -/
def SIM_RECORD_BUFFER_MAX : Int := (256 * 2) + 4 + 1

/-- The bytes of a C string literal (without the terminating NUL). -/
def str (s : String) : List Nat := s.data.map Char.toNat

/-- The C string held at the start of a buffer: the bytes before the first NUL. -/
def cstr (s : List Nat) : List Nat := s.takeWhile (fun c => c != 0)

/-- The C function `strlen`. -/
def strlen (s : List Nat) : Nat := (cstr s).length

/-- Decimal digits of a natural number, most significant first; `fuel` bounds
the number of digits. -/
def utoaAux : Nat → Nat → List Nat
  | 0, _ => []
  | fuel + 1, n => if n < 10 then [48 + n] else utoaAux fuel (n / 10) ++ [48 + n % 10]

/-- What `printf` prints for `%u`. -/
def utoa (n : Nat) : List Nat := utoaAux (n + 1) n

/-- What `printf` prints for `%d`. -/
def itoa (n : Int) : List Nat :=
  if n < 0 then 45 :: utoa n.natAbs else utoa n.natAbs

/-- One uppercase hexadecimal digit, as printed by `%X`. -/
def hexDigit (d : Nat) : Nat := if d < 10 then 48 + d else 55 + d

/-- What `printf` prints for `%2.2X` applied to a `uint8_t`. -/
def hex2 (b : Nat) : List Nat := [hexDigit (b / 16 % 16), hexDigit (b % 16)]

/-- Storing `w` at the start of `buf`: the bytes of `buf` past `w` stay. -/
def overwrite (w buf : List Nat) : List Nat := w ++ buf.drop w.length

/-- The effect of `snprintf(buf, size, ...)` on `buf`, where `text` is the complete
formatted text: at most `size - 1` characters are stored, then a NUL. Nothing
is stored for `size ≤ 0` (for a negative size the C call is undefined). -/
def snprintf_write (buf : List Nat) (size : Int) (text : List Nat) : List Nat :=
  if size ≤ 0 then buf else overwrite (text.take (size.toNat - 1) ++ [0]) buf

/-- The effect of `memcpy(&dst[ofs], src, n)`; bytes of `src` past its end read as 0,
as in the zero-filled `pkcs15_object_t`. -/
def memcpy_at (dst : List Nat) (ofs : Nat) (src : List Nat) (n : Nat) : List Nat :=
  dst.take ofs ++ (List.range n).map (fun k => src.getD k 0) ++ dst.drop (ofs + n)

/-! ## `sim_bootstrap.c` -/

/-- The C function `hex_to_nibble`. -/
def hex_to_nibble (src : Nat) : Nat :=
  if 65 ≤ src ∧ src ≤ 70 then src - 65 + 10
  else if 97 ≤ src ∧ src ≤ 102 then src - 97 + 10
  else if 48 ≤ src ∧ src ≤ 57 then src - 48
  else 0

/-- The memory after the first `n` iterations of the loop of `hex_to_bin`, where
`dst` and `src` are the positions of the two pointers in `mem`: iteration `k`
has `i = 2 * k` and `ofs = k`. -/
def hex_to_bin_iter (dst src : Nat) : Nat → List Nat → List Nat
  | 0, mem => mem
  | k + 1, mem =>
    let m := hex_to_bin_iter dst src k mem
    m.set (dst + k)
      (((hex_to_nibble (m.getD (src + 2 * k) 0)) * 16
        + hex_to_nibble (m.getD (src + 2 * k + 1) 0)) % 256)

/-- The C function `hex_to_bin`: the loop `for (i = 0; i < len; i += 2)` runs
`(len + 1) / 2` times for a positive `len` and not at all otherwise; the result is
the final `ofs` and the memory. -/
def hex_to_bin (mem : List Nat) (dst src : Nat) (len : Int) : Int × List Nat :=
  let n := (len.toNat + 1) / 2
  ((n : Int), hex_to_bin_iter dst src n mem)

/-- What `nrf_modem_at_scanf` hands back: its return value, the value stored
through the `int *` argument and the bytes stored through `p_response`. -/
structure Reply where
  rc : Int
  length : Int
  response : List Nat
  deriving DecidableEq

/-- The external transport `nrf_modem_at_scanf(cmd, fmt, &length, p_response)`
over its own state. -/
abbrev Transport (σ : Type) := σ → List Nat → List Nat → σ × Reply

/-- The modem: the transport state and, as a ghost field, the commands handed to
the transport so far, oldest first. -/
structure Modem (σ : Type) where
  st : σ
  sent : List (List Nat)
  deriving DecidableEq

/-- The result of a step: the returned `int`, the buffer and the modem. -/
structure Res (σ : Type) where
  ret : Int
  buf : List Nat
  modem : Modem σ
  deriving DecidableEq

/-- The scan format built by the first `snprintf` of `csim_send`. -/
def csim_fmt (buffer_size : Int) : List Nat :=
  str "+CSIM: %d,\"%" ++ itoa (buffer_size - 1) ++ str "s\""

/-- The command text built by the second `snprintf` of `csim_send`. -/
def at_text (p_csim_command : List Nat) : List Nat :=
  str "AT+CSIM=" ++ utoa (strlen p_csim_command) ++ str ",\"" ++ cstr p_csim_command
    ++ str "\""

/-- The bytes compared by `memcmp(&p_response[length - 4], "9000", 4)`. -/
def status_word (p_response : List Nat) (length : Int) : List Nat :=
  (p_response.drop (length - 4).toNat).take 4

/-- The C function `csim_send`. -/
def csim_send {σ : Type} (tr : Transport σ) (m : Modem σ)
    (p_csim_command p_response : List Nat) (buffer_size : Int) : Res σ :=
  if ((csim_fmt buffer_size).length : Int) ≥ 20 then
    ⟨-EINVAL, p_response, m⟩
  else
    let text := at_text p_csim_command
    let p_response := snprintf_write p_response buffer_size text
    if (text.length : Int) ≥ buffer_size then
      ⟨-EINVAL, p_response, m⟩
    else
      let out := tr m.st text (csim_fmt buffer_size)
      let m := Modem.mk out.1 (m.sent ++ [text])
      let rc := out.2.rc
      let length := out.2.length
      let p_response := overwrite out.2.response p_response
      if rc < 0 then
        ⟨rc, p_response, m⟩
      else if rc ≠ 2 ∨ length < 4 ∨ status_word p_response length ≠ str "9000" then
        ⟨-EINVAL, p_response, m⟩
      else
        ⟨length - 4, p_response, m⟩

/-- The select template of `csim_read_file` with the path copied in. -/
def csim_select (p_path : List Nat) : List Nat :=
  memcpy_at (str "01A40804047FFF****00" ++ [0]) 14 p_path 4

/-- The read template of `csim_read_file` after the optional length override. -/
def csim_read (buffer_size : Int) : List Nat :=
  if buffer_size < SIM_RECORD_BUFFER_MAX then
    (str "01B0000000" ++ [0]).take 8
      ++ snprintf_write ((str "01B0000000" ++ [0]).drop 8) 3
          (hex2 (Int.tdiv (buffer_size - 4) 2 % 256).toNat)
  else
    str "01B0000000" ++ [0]

/-- The C function `csim_read_file`. -/
def csim_read_file {σ : Type} (tr : Transport σ) (m : Modem σ)
    (p_path p_response : List Nat) (buffer_size : Int) : Res σ :=
  let r := csim_send tr m (csim_select p_path) p_response buffer_size
  if r.ret ≤ 0 then r
  else
    let r := csim_send tr r.modem (csim_read buffer_size) r.buf buffer_size
    if r.ret ≤ 0 then r
    else
      let h := hex_to_bin r.buf 0 0 r.ret
      ⟨h.1, h.2, r.modem⟩

/-- An external path decoder (`pkcs15_ef_odf_path_decode`,
`pkcs15_ef_dodf_path_decode`): from the `length` bytes it is given to its return
value and the `path` field it leaves in the zero-filled `pkcs15_object_t`. -/
abbrev Decoder := List Nat → Bool × List Nat

/-- The C function `sim_bootstrap_read_records`. -/
def sim_bootstrap_read_records {σ : Type} (tr : Transport σ) (odf dodf : Decoder)
    (m : Modem σ) (p_buffer : List Nat) (buffer_size : Int) : Res σ :=
  let r := csim_read_file tr m (str "5031") p_buffer buffer_size
  if r.ret ≤ 0 then r
  else
    let o := odf (r.buf.take r.ret.toNat)
    if !o.1 then ⟨-ENOENT, r.buf, r.modem⟩
    else if o.2.getD 0 0 = 0 then ⟨-ENOENT, r.buf, r.modem⟩
    else
      let r := csim_read_file tr r.modem o.2 r.buf buffer_size
      if r.ret ≤ 0 then r
      else
        let o := dodf (r.buf.take r.ret.toNat)
        if !o.1 then ⟨-ENOENT, r.buf, r.modem⟩
        else if o.2.getD 0 0 = 0 then ⟨-ENOENT, r.buf, r.modem⟩
        else csim_read_file tr r.modem o.2 r.buf buffer_size

/-- The open-channel command. -/
def cmd_open : List Nat := str "0070000001"

/-- The command selecting PKCS #15 by its default AID. -/
def cmd_select_app : List Nat := str "01A404040CA000000063504B43532D313500"

/-- The close-channel command. -/
def cmd_close : List Nat := str "01708001"

/-- The close exchange of `sim_bootstrap_read`, on its own 21-byte buffer (the
command text and its NUL fill all 21 bytes, so the initial content is immaterial). -/
def close_send {σ : Type} (tr : Transport σ) (m : Modem σ) : Res σ :=
  csim_send tr m cmd_close (List.replicate 21 0) 21

/-- The C function `sim_bootstrap_read`. -/
def sim_bootstrap_read {σ : Type} (tr : Transport σ) (odf dodf : Decoder)
    (m : Modem σ) (p_buffer : List Nat) (buffer_size : Int) : Res σ :=
  let r := csim_send tr m cmd_open p_buffer buffer_size
  if r.ret ≤ 0 then r
  else
    let r := csim_send tr r.modem cmd_select_app r.buf buffer_size
    let r := if r.ret > 0 then sim_bootstrap_read_records tr odf dodf r.modem r.buf buffer_size
             else r
    let c := close_send tr r.modem
    if r.ret ≥ 0 ∧ c.ret < 0 then ⟨c.ret, r.buf, c.modem⟩
    else ⟨r.ret, r.buf, c.modem⟩

end SimBootstrap


/-! ## The test harness of `tests/lib/sim_bootstrap/src/main.c` -/

namespace SimBootstrapTest

open SimBootstrap

/-- The C function `isspace`. -/
def isspace (c : Nat) : Bool := c == 32 || (9 ≤ c && c ≤ 13)

/-- The C function `isdigit`. -/
def isdigit (c : Nat) : Bool := 48 ≤ c && c ≤ 57

/-- The value of a string of decimal digits. -/
def digits_value (ds : List Nat) : Nat := ds.foldl (fun a d => 10 * a + (d - 48)) 0

/-- The progress of a `vsscanf` call with an `int *` and a `char *` argument: the
number of conversions stored, the `int` and the string (with its NUL). -/
structure Scan where
  count : Nat
  d : Int
  s : List Nat
  deriving DecidableEq

/-- The value `vsscanf` returns when it stops: `EOF` when the input ran out before
the first conversion, the number of conversions otherwise. -/
def scan_stop (inp : List Nat) (sc : Scan) : Int × Scan :=
  (if inp = [] ∧ sc.count = 0 then -1 else (sc.count : Int), sc)

/-- The C library function `vsscanf`, for formats made of white space, ordinary
characters, `%d` and `%<width>s`; `fuel` bounds the number of directives. -/
def vsscanf_go : Nat → List Nat → List Nat → Scan → Int × Scan
  | 0, _, _, sc => ((sc.count : Int), sc)
  | _ + 1, [], _, sc => ((sc.count : Int), sc)
  | fuel + 1, f :: fs, inp, sc =>
    if isspace f then vsscanf_go fuel fs (inp.dropWhile isspace) sc
    else if f = 37 then
      let width := digits_value (fs.takeWhile isdigit)
      match fs.dropWhile isdigit with
      | 100 :: rest =>
        let inp := inp.dropWhile isspace
        let neg := inp.head? = some 45
        let body := if inp.head? = some 45 ∨ inp.head? = some 43 then inp.drop 1 else inp
        let ds := body.takeWhile isdigit
        if ds = [] then scan_stop inp sc
        else
          let v : Int := if neg then -(digits_value ds : Int) else (digits_value ds : Int)
          vsscanf_go fuel rest (body.dropWhile isdigit) ⟨sc.count + 1, v, sc.s⟩
      | 115 :: rest =>
        let inp := inp.dropWhile isspace
        let word := inp.takeWhile (fun c => !isspace c)
        let tok := if width = 0 then word else word.take width
        if tok = [] then scan_stop inp sc
        else vsscanf_go fuel rest (inp.drop tok.length) ⟨sc.count + 1, sc.d, tok ++ [0]⟩
      | _ => ((sc.count : Int), sc)
    else
      match inp with
      | c :: rest => if c = f then vsscanf_go fuel fs rest sc else ((sc.count : Int), sc)
      | [] => scan_stop inp sc

/-- The call `vsscanf(response, fmt, args)` of the test transport. -/
def vsscanf (response fmt : List Nat) : Int × Scan :=
  vsscanf_go (fmt.length + 1) fmt response ⟨0, 0, []⟩

/-- The state of the test transport: the transcript `at_csim_command` (pairs of
command and response), the index `at_csim_command_num`, and whether one of its
assertions has failed. -/
structure TestState where
  at_csim_command : List (List Nat × List Nat)
  at_csim_command_num : Nat
  failed : Bool
  deriving DecidableEq

/-- The test's `nrf_modem_at_scanf`: it checks the command and the format against
the transcript, scans the transcript's response and moves on. -/
def nrf_modem_at_scanf : Transport TestState := fun s cmd fmt =>
  match s.at_csim_command.get? s.at_csim_command_num with
  | none => (⟨s.at_csim_command, s.at_csim_command_num, true⟩, ⟨0, 0, []⟩)
  | some e =>
    let expected :=
      if s.at_csim_command_num + 1 = s.at_csim_command.length then str "+CSIM: %d,\"%20s\""
      else str "+CSIM: %d,\"%260s\""
    if cmd ≠ e.1 ∨ fmt ≠ expected then
      (⟨s.at_csim_command, s.at_csim_command_num, true⟩, ⟨0, 0, []⟩)
    else
      let r := vsscanf e.2 fmt
      (⟨s.at_csim_command, s.at_csim_command_num + 1, s.failed⟩, ⟨r.1, r.2.d, r.2.s⟩)

/-- The transcript `at_csim_application_not_found`. -/
def at_csim_application_not_found : List (List Nat × List Nat) :=
  [ (str "AT+CSIM=10,\"0070000001\"", str "+CSIM: 6,\"019000\""),
    (str "AT+CSIM=36,\"01A404040CA000000063504B43532D313500\"", str "+CSIM: 4,\"6A82\""),
    (str "AT+CSIM=8,\"01708001\"", str "+CSIM: 4,\"9000\"") ]

/-- The transcript `at_csim_bootstrap_not_found`. -/
def at_csim_bootstrap_not_found : List (List Nat × List Nat) :=
  [ (str "AT+CSIM=10,\"0070000001\"", str "+CSIM: 6,\"019000\""),
    (str "AT+CSIM=36,\"01A404040CA000000063504B43532D313500\"",
     str "+CSIM: 62,\"621B8202412183025031A5038001718A01058B036F06028002003888009000\""),
    (str "AT+CSIM=20,\"01A40804047FFF503100\"",
     str "+CSIM: 62,\"621B8202412183025031A5038001718A01058B036F06028002003888009000\""),
    (str "AT+CSIM=10,\"01B0000080\"",
     str "+CSIM: 42,\"A706300404024407A506300404024404FFFFFF9000\""),
    (str "AT+CSIM=20,\"01A40804047FFF440700\"",
     str "+CSIM: 62,\"621B8202412183024407A5038001718A01058B036F0602800200C888009000\""),
    (str "AT+CSIM=10,\"01B0000080\"",
     str "+CSIM: 42,\"FFFFFFFFFFFFFFFFFFFFFFFFFFFFFFFFFFFFFF9000\""),
    (str "AT+CSIM=8,\"01708001\"", str "+CSIM: 4,\"9000\"") ]

/-- The transcript `at_csim_success`. -/
def at_csim_success : List (List Nat × List Nat) :=
  [ (str "AT+CSIM=10,\"0070000001\"", str "+CSIM: 6,\"019000\""),
    (str "AT+CSIM=36,\"01A404040CA000000063504B43532D313500\"",
     str "+CSIM: 82,\"622582027821840CA000000063504B43532D31358A01058B032F060CC60990014083010183010A9000\""),
    (str "AT+CSIM=20,\"01A40804047FFF503100\"",
     str "+CSIM: 52,\"621682024121830250318A01058B036F06028002002088009000\""),
    (str "AT+CSIM=10,\"01B0000080\"", str "+CSIM: 20,\"A7063004040264309000\""),
    (str "AT+CSIM=20,\"01A40804047FFF643000\"",
     str "+CSIM: 52,\"621682024121830264308A01058B036F06028002007888009000\""),
    (str "AT+CSIM=10,\"01B0000080\"",
     str "+CSIM: 86,\"A127300030110C0F4C774D324D20426F6F747374726170A110300E06060604672B09013004040264329000\""),
    (str "AT+CSIM=20,\"01A40804047FFF643200\"",
     str "+CSIM: 52,\"621682024121830264308A01058B036F06028002007888009000\""),
    (str "AT+CSIM=10,\"01B0000080\"",
     str "+CSIM: 108,\"C80016626F6F74702E696F742E742D6D6F62696C652E636F6DC10101410100C80506313233343536C805096C776D326D406464699000\""),
    (str "AT+CSIM=8,\"01708001\"", str "+CSIM: 4,\"9000\"") ]

/-- The modem at the start of a test: the transcript, index 0, nothing sent. -/
def start (transcript : List (List Nat × List Nat)) : Modem TestState :=
  ⟨⟨transcript, 0, false⟩, []⟩

/-- The body of the three tests: `sim_bootstrap_read(buffer, sizeof(buffer))` on the
261-byte stack buffer, whose initial content is `buffer`. -/
def run_test (transcript : List (List Nat × List Nat)) (odf dodf : Decoder)
    (buffer : List Nat) : Res TestState :=
  sim_bootstrap_read nrf_modem_at_scanf odf dodf (start transcript) buffer 261

end SimBootstrapTest

/-! ## `asn1_decode.c` -/

namespace Asn1

/-- The decode context `asn1_ctx_t` (declared in `asn1_decode.h`): the buffer, its
length, the read offset and the error flag. Offsets and lengths are natural
numbers; sums of them are taken not to wrap. -/
structure asn1_ctx_t where
  asnbuf : List Nat
  length : Nat
  offset : Nat
  error : Bool
  deriving DecidableEq

/-- The byte `ctx->asnbuf[i]`. -/
def asn1_ctx_t.byte (ctx : asn1_ctx_t) (i : Nat) : Nat := ctx.asnbuf.getD i 0

/-- What `asn1_dec_head` leaves behind: its return value, the context and the
caller's `*tag` and `*len`. -/
structure Head where
  ok : Bool
  ctx : asn1_ctx_t
  tag : Nat
  len : Nat
  deriving DecidableEq

/-- The loop `for (i = 0; i < n; i++) *len = (*len << 8) + ctx->asnbuf[ctx->offset++]`
of `asn1_dec_head`, run for `n` iterations from the given offset and `*len`. -/
def asn1_len_octets : Nat → asn1_ctx_t → Nat → asn1_ctx_t × Nat
  | 0, ctx, len => (ctx, len)
  | n + 1, ctx, len =>
    asn1_len_octets n ⟨ctx.asnbuf, ctx.length, ctx.offset + 1, ctx.error⟩
      (len * 256 + ctx.byte ctx.offset)

/-- The last check of `asn1_dec_head`: the value must lie within the buffer. -/
def asn1_dec_head_value (ctx : asn1_ctx_t) (tag len : Nat) : Head :=
  if ctx.offset + len > ctx.length then
    ⟨false, ⟨ctx.asnbuf, ctx.length, ctx.offset, true⟩, tag, len⟩
  else
    ⟨true, ctx, tag, len⟩

/-- The C function `asn1_dec_head`; `tag` and `len` are the values the caller's
variables hold before the call. -/
def asn1_dec_head (ctx : asn1_ctx_t) (tag len : Nat) : Head :=
  let hlen := 2
  if ctx.error = true ∨ ctx.offset + hlen > ctx.length then
    ⟨false, ctx, tag, len⟩
  else
    let tag := ctx.byte ctx.offset
    let len := ctx.byte (ctx.offset + 1)
    let ctx : asn1_ctx_t := ⟨ctx.asnbuf, ctx.length, ctx.offset + 2, ctx.error⟩
    if tag &&& 0x1F = 0x1F then
      ⟨false, ⟨ctx.asnbuf, ctx.length, ctx.offset, true⟩, tag, len⟩
    else if len &&& 0x80 ≠ 0 then
      let n := len &&& 0x7F
      let hlen := hlen + n
      if n > 3 ∨ ctx.offset + hlen > ctx.length then
        ⟨false, ⟨ctx.asnbuf, ctx.length, ctx.offset, true⟩, tag, len⟩
      else
        let r := asn1_len_octets n ctx 0
        asn1_dec_head_value r.1 tag r.2
    else
      asn1_dec_head_value ctx tag len

/-- The table `hex_chr` of `copy_to_hex`. -/
def hex_chr : List Nat := [48, 49, 50, 51, 52, 53, 54, 55, 56, 57, 65, 66, 67, 68, 69, 70]

/-- The characters `copy_to_hex` stores for the bytes `src`: two per byte, then a NUL. -/
def copy_to_hex_chars : List Nat → List Nat
  | [] => [0]
  | b :: rest =>
    hex_chr.getD ((b &&& 0xF0) >>> 4) 0 :: hex_chr.getD (b &&& 0x0F) 0 :: copy_to_hex_chars rest

/-- The C function `copy_to_hex`, as its effect on `dst`; `src` is the buffer holding
the `len` source bytes from position `ofs`. -/
def copy_to_hex (dst src : List Nat) (ofs len : Nat) : List Nat :=
  SimBootstrap.overwrite (copy_to_hex_chars ((List.range len).map (fun i => src.getD (ofs + i) 0))) dst

/-- The C function `asn1_dec_octet_string`: the context and the `value` buffer after
the call. -/
def asn1_dec_octet_string (ctx : asn1_ctx_t) (len : Nat) (value : List Nat) (max_len : Nat) :
    asn1_ctx_t × List Nat :=
  if len ≥ max_len then
    (⟨ctx.asnbuf, ctx.length, ctx.offset, true⟩, value)
  else
    (⟨ctx.asnbuf, ctx.length, ctx.offset + len, ctx.error⟩,
      copy_to_hex value ctx.asnbuf ctx.offset len)

/-- The C function `asn1_dec_sequence`; the sub-parser `sequence_func` works on the
sub-context and the caller's `data`. -/
def asn1_dec_sequence {δ : Type} (ctx : asn1_ctx_t) (len : Nat) (data : δ)
    (sequence_func : asn1_ctx_t → δ → asn1_ctx_t × δ) : asn1_ctx_t × δ :=
  let seq_ctx : asn1_ctx_t := ⟨ctx.asnbuf.drop ctx.offset, len, 0, false⟩
  let r := sequence_func seq_ctx data
  (⟨ctx.asnbuf, ctx.length, ctx.offset + len, r.1.error⟩, r.2)

/-- The C function `asn1_dec_skip`. -/
def asn1_dec_skip (ctx : asn1_ctx_t) (len : Nat) : asn1_ctx_t :=
  ⟨ctx.asnbuf, ctx.length, ctx.offset + len, ctx.error⟩

end Asn1

/-! ## Vocabulary of the statements -/

namespace SimBootstrap

/-- Both formatting steps of `csim_send` fit, so that the transport is called. -/
def fits (p_csim_command : List Nat) (buffer_size : Int) : Prop :=
  ((csim_fmt buffer_size).length : Int) < 20 ∧ ((at_text p_csim_command).length : Int) < buffer_size

instance (c : List Nat) (n : Int) : Decidable (fits c n) := by
  unfold fits; infer_instance

/-- The reply of the transport to the exchange `csim_send` issues for a command. -/
def reply_to {σ : Type} (tr : Transport σ) (m : Modem σ) (p_csim_command : List Nat)
    (buffer_size : Int) : Reply :=
  (tr m.st (at_text p_csim_command) (csim_fmt buffer_size)).2

/-- The buffer `p_response` right after that exchange. -/
def buffer_after {σ : Type} (tr : Transport σ) (m : Modem σ) (p_csim_command p_response : List Nat)
    (buffer_size : Int) : List Nat :=
  overwrite (reply_to tr m p_csim_command buffer_size).response
    (snprintf_write p_response buffer_size (at_text p_csim_command))

/-- The pending result when `sim_bootstrap_read` reaches its close step: the outcome
of application select and, when that gave a positive length, of record reading. -/
def pending {σ : Type} (tr : Transport σ) (odf dodf : Decoder)
    (m : Modem σ) (p_buffer : List Nat) (buffer_size : Int) : Res σ :=
  let r := csim_send tr (csim_send tr m cmd_open p_buffer buffer_size).modem cmd_select_app
    (csim_send tr m cmd_open p_buffer buffer_size).buf buffer_size
  if r.ret > 0 then sim_bootstrap_read_records tr odf dodf r.modem r.buf buffer_size else r

/-- A transport that answers every command with the bare status word: `+CSIM: 4,"9000"`. -/
def bare_transport : Transport Unit := fun _ _ _ => ((), ⟨2, 4, str "9000\"" ++ [0]⟩)

/-- The hex decoding of a text: byte `k` comes from the characters `2 * k` and
`2 * k + 1`, an illegal digit counting as 0. -/
def hex_decode (s : List Nat) : List Nat :=
  (List.range (s.length / 2)).map (fun k =>
    (hex_to_nibble (s.getD (2 * k) 0) * 16 + hex_to_nibble (s.getD (2 * k + 1) 0)) % 256)

/-- A result seen with the buffer continued by the bytes of `b` past its end. -/
def Res.over {σ : Type} (r : Res σ) (b : List Nat) : Res σ :=
  ⟨r.ret, overwrite r.buf b, r.modem⟩

/-- A path decoder that never finds an entry. -/
def no_entry : Decoder := fun _ => (false, [])

end SimBootstrap

namespace SimBootstrap

/-- A run of `sim_bootstrap_read`: the transport, the two path decoders, the modem
before the call and the two arguments. -/
structure Run (σ : Type) where
  tr : Transport σ
  odf : Decoder
  dodf : Decoder
  m : Modem σ
  p_buffer : List Nat
  buffer_size : Int

/-- What the run returns. -/
def Run.result {σ : Type} (r : Run σ) : Res σ :=
  sim_bootstrap_read r.tr r.odf r.dodf r.m r.p_buffer r.buffer_size

/-- The open-channel exchange of the run. -/
def Run.opened {σ : Type} (r : Run σ) : Res σ :=
  csim_send r.tr r.m cmd_open r.p_buffer r.buffer_size

/-- The application-select exchange of the run. -/
def Run.app {σ : Type} (r : Run σ) : Res σ :=
  csim_send r.tr r.opened.modem cmd_select_app r.opened.buf r.buffer_size

/-- Select and read of EF(ODF). -/
def Run.odf_file {σ : Type} (r : Run σ) : Res σ :=
  csim_read_file r.tr r.app.modem (str "5031") r.app.buf r.buffer_size

/-- The answer of the ODF path decoder. -/
def Run.odf_path {σ : Type} (r : Run σ) : Bool × List Nat :=
  r.odf (r.odf_file.buf.take r.odf_file.ret.toNat)

/-- Select and read of EF(DODF). -/
def Run.dodf_file {σ : Type} (r : Run σ) : Res σ :=
  csim_read_file r.tr r.odf_file.modem r.odf_path.2 r.odf_file.buf r.buffer_size

/-- The answer of the DODF path decoder. -/
def Run.dodf_path {σ : Type} (r : Run σ) : Bool × List Nat :=
  r.dodf (r.dodf_file.buf.take r.dodf_file.ret.toNat)

/-- The select exchange of EF(DODF-bootstrap). -/
def Run.boot_select {σ : Type} (r : Run σ) : Res σ :=
  csim_send r.tr r.dodf_file.modem (csim_select r.dodf_path.2) r.dodf_file.buf r.buffer_size

/-- The read exchange of EF(DODF-bootstrap). -/
def Run.boot_read {σ : Type} (r : Run σ) : Res σ :=
  csim_send r.tr r.boot_select.modem (csim_read r.buffer_size) r.boot_select.buf r.buffer_size

/-- Select and read of EF(DODF-bootstrap). -/
def Run.boot_file {σ : Type} (r : Run σ) : Res σ :=
  csim_read_file r.tr r.dodf_file.modem r.dodf_path.2 r.dodf_file.buf r.buffer_size

/-- The close exchange after a complete chain. -/
def Run.closed {σ : Type} (r : Run σ) : Res σ :=
  close_send r.tr r.boot_file.modem

/-- Every step before the close step succeeds: open, application select and the
three select/read pairs give a positive length (`csim_read_file` does so exactly
when its select and its read both do), and both decoders return true with a path
whose first character is not NUL. -/
def Run.succeeds {σ : Type} (r : Run σ) : Prop :=
  0 < r.opened.ret ∧ 0 < r.app.ret ∧ 0 < r.odf_file.ret
    ∧ r.odf_path.1 = true ∧ r.odf_path.2.getD 0 0 ≠ 0
    ∧ 0 < r.dodf_file.ret
    ∧ r.dodf_path.1 = true ∧ r.dodf_path.2.getD 0 0 ≠ 0
    ∧ 0 < r.boot_file.ret

instance {σ : Type} (r : Run σ) : Decidable r.succeeds := by
  unfold Run.succeeds; infer_instance

/-- The reply to an exchange reports no more characters than the buffer `v` holds
after it: `csim_send` then reads no byte past the end of `v`. -/
def send_guard {σ : Type} (tr : Transport σ) (m : Modem σ) (c v : List Nat) (n : Int) : Prop :=
  (reply_to tr m c n).length.toNat ≤ (buffer_after tr m c v n).length

instance {σ : Type} (tr : Transport σ) (m : Modem σ) (c v : List Nat) (n : Int) :
    Decidable (send_guard tr m c v n) := by
  unfold send_guard; infer_instance

/-- The same for the two exchanges of `csim_read_file`. -/
def read_guard {σ : Type} (tr : Transport σ) (m : Modem σ) (p v : List Nat) (n : Int) : Prop :=
  send_guard tr m (csim_select p) v n
    ∧ send_guard tr (csim_send tr m (csim_select p) v n).modem (csim_read n)
        (csim_send tr m (csim_select p) v n).buf n

instance {σ : Type} (tr : Transport σ) (m : Modem σ) (p v : List Nat) (n : Int) :
    Decidable (read_guard tr m p v n) := by
  unfold read_guard; infer_instance

/-- The same for the steps of a run up to the reading of EF(ODF). -/
def Run.guard_odf {σ : Type} (r : Run σ) : Prop :=
  send_guard r.tr r.m cmd_open r.p_buffer r.buffer_size
    ∧ send_guard r.tr r.opened.modem cmd_select_app r.opened.buf r.buffer_size
    ∧ read_guard r.tr r.app.modem (str "5031") r.app.buf r.buffer_size
    ∧ r.odf_file.ret.toNat ≤ r.odf_file.buf.length

instance {σ : Type} (r : Run σ) : Decidable r.guard_odf := by
  unfold Run.guard_odf; infer_instance

/-- The same for the reading of EF(DODF). -/
def Run.guard_dodf {σ : Type} (r : Run σ) : Prop :=
  read_guard r.tr r.odf_file.modem r.odf_path.2 r.odf_file.buf r.buffer_size
    ∧ r.dodf_file.ret.toNat ≤ r.dodf_file.buf.length

instance {σ : Type} (r : Run σ) : Decidable r.guard_dodf := by
  unfold Run.guard_dodf; infer_instance

/-- The same for the reading of EF(DODF-bootstrap). -/
def Run.guard_boot {σ : Type} (r : Run σ) : Prop :=
  read_guard r.tr r.dodf_file.modem r.dodf_path.2 r.dodf_file.buf r.buffer_size

instance {σ : Type} (r : Run σ) : Decidable r.guard_boot := by
  unfold Run.guard_boot; infer_instance

/-- The run `r` with other decoders and with the buffer continued by `b`. -/
def Run.over {σ : Type} (r : Run σ) (odf dodf : Decoder) (b : List Nat) : Run σ :=
  ⟨r.tr, odf, dodf, r.m, overwrite r.p_buffer b, r.buffer_size⟩

end SimBootstrap

namespace SimBootstrapTest

open SimBootstrap

/-- The content of EF(ODF) in the transcript `at_csim_success`. -/
def ef_odf_bytes : List Nat :=
  [0xA7, 0x06, 0x30, 0x04, 0x04, 0x02, 0x64, 0x30]

/-- The content of EF(ODF) in the transcript `at_csim_bootstrap_not_found`. -/
def ef_odf_4407_bytes : List Nat :=
  [0xA7, 0x06, 0x30, 0x04, 0x04, 0x02, 0x44, 0x07, 0xA5, 0x06, 0x30, 0x04, 0x04, 0x02, 0x44,
    0x04, 0xFF, 0xFF, 0xFF]

/-- The content of EF(DODF) in the transcript `at_csim_success`. -/
def ef_dodf_bytes : List Nat :=
  [0xA1, 0x27, 0x30, 0x00, 0x30, 0x11, 0x0C, 0x0F, 0x4C, 0x77, 0x4D, 0x32, 0x4D, 0x20, 0x42,
    0x6F, 0x6F, 0x74, 0x73, 0x74, 0x72, 0x61, 0x70, 0xA1, 0x10, 0x30, 0x0E, 0x06, 0x06, 0x06,
    0x04, 0x67, 0x2B, 0x09, 0x01, 0x30, 0x04, 0x04, 0x02, 0x64, 0x32]

/-- The content of EF(DODF) in the transcript `at_csim_bootstrap_not_found`. -/
def ef_dodf_empty_bytes : List Nat := List.replicate 19 0xFF

/-- Modelled from the spec: the ODF path decoder `pkcs15_ef_odf_path_decode`, whose
source is not part of this development. Only its interface and its answers on test
vectors are known: it gives the two EF(ODF) contents of the test transcripts the
paths the transcripts select next, and finds no entry anywhere else. -/
def vector_odf_decode : Decoder := fun bytes =>
  if bytes = ef_odf_bytes then (true, str "6430" ++ [0])
  else if bytes = ef_odf_4407_bytes then (true, str "4407" ++ [0])
  else (false, [])

/-- Modelled from the spec: the DODF path decoder `pkcs15_ef_dodf_path_decode`,
whose source is not part of this development. It gives the EF(DODF) content of the
transcript `at_csim_success` the path 6432 and finds no entry anywhere else. -/
def vector_dodf_decode : Decoder := fun bytes =>
  if bytes = ef_dodf_bytes then (true, str "6432" ++ [0]) else (false, [])

/-- The run of a test with the given decoders and initial buffer content. -/
def test_run (transcript : List (List Nat × List Nat)) (odf dodf : Decoder)
    (buffer : List Nat) : Run TestState :=
  ⟨nrf_modem_at_scanf, odf, dodf, start transcript, buffer, 261⟩

/-- The reference run of a test: the decoders pinned by the test vectors and
nothing in the buffer yet. -/
def ref_run (transcript : List (List Nat × List Nat)) : Run TestState :=
  test_run transcript vector_odf_decode vector_dodf_decode []

/-- A transport that answers every command with the text `+CSIM: 30,"X"`, scanned
with the format of the caller as the test transport scans its responses: the
reported length is 30, the reply text is the one character `X` and the closing
quote. -/
def short_reply : Transport Unit := fun _ _ fmt =>
  ((), ⟨(vsscanf (str "+CSIM: 30,\"X\"") fmt).1, (vsscanf (str "+CSIM: 30,\"X\"") fmt).2.d,
    (vsscanf (str "+CSIM: 30,\"X\"") fmt).2.s⟩)

end SimBootstrapTest

namespace Asn1

/-- The big-endian value of a list of octets. -/
def be_value (l : List Nat) : Nat := l.foldl (fun a b => a * 256 + b) 0

/-- The number of length octets that follow the length byte of the header at the
offset: the low 7 bits of a length byte whose high bit is set, none otherwise. -/
def length_octets (ctx : asn1_ctx_t) : Nat :=
  if ctx.byte (ctx.offset + 1) &&& 0x80 ≠ 0 then ctx.byte (ctx.offset + 1) &&& 0x7F else 0

/-- The content length declared by the header at the offset: the big-endian value
of the length octets in the long form, the length byte itself in the short form. -/
def declared_length (ctx : asn1_ctx_t) : Nat :=
  if ctx.byte (ctx.offset + 1) &&& 0x80 ≠ 0 then
    be_value ((List.range (length_octets ctx)).map (fun i => ctx.byte (ctx.offset + 2 + i)))
  else ctx.byte (ctx.offset + 1)

/-- The uppercase hexadecimal text of a list of bytes, high nibble first. -/
def hex_text : List Nat → List Nat
  | [] => []
  | b :: rest => SimBootstrap.hex2 b ++ hex_text rest

/-- The bytes of the buffer at the positions `offset .. offset + len - 1`. -/
def asn1_ctx_t.bytes (ctx : asn1_ctx_t) (len : Nat) : List Nat :=
  (List.range len).map (fun i => ctx.byte (ctx.offset + i))

/-- A call of one of the four decoding functions on a context; `δ` is the type of
the caller's data handed to sub-parsers. -/
inductive Op (δ : Type) where
  | head (tag len : Nat)
  | octet_string (len : Nat) (value : List Nat) (max_len : Nat)
  | sequence (len : Nat) (sequence_func : asn1_ctx_t → δ → asn1_ctx_t × δ)
  | skip (len : Nat)

/-- The context and the caller's data after a call. -/
def Op.apply {δ : Type} : Op δ → asn1_ctx_t × δ → asn1_ctx_t × δ
  | Op.head tag len, s => ((asn1_dec_head s.1 tag len).ctx, s.2)
  | Op.octet_string len value max_len, s =>
    ((asn1_dec_octet_string s.1 len value max_len).1, s.2)
  | Op.sequence len f, s => asn1_dec_sequence s.1 len s.2 f
  | Op.skip len, s => (asn1_dec_skip s.1 len, s.2)

/-- The context and the caller's data after a sequence of calls. -/
def run {δ : Type} (ops : List (Op δ)) (s : asn1_ctx_t × δ) : asn1_ctx_t × δ :=
  ops.foldl (fun s op => op.apply s) s

/-- Along the sequence of calls, every sub-parser run by `asn1_dec_sequence` returns
with the error flag of its sub-context set. -/
def sub_parsers_fail {δ : Type} : List (Op δ) → asn1_ctx_t × δ → Prop
  | [], _ => True
  | Op.sequence len f :: rest, s =>
    (f ⟨s.1.asnbuf.drop s.1.offset, len, 0, false⟩ s.2).1.error = true
      ∧ sub_parsers_fail rest ((Op.sequence len f).apply s)
  | op :: rest, s => sub_parsers_fail rest (op.apply s)

end Asn1

namespace SimBootstrap

/-- The byte count `Le` that the read command of `csim_read_file` asks for: the
value of its last byte (characters 8 and 9), where 00 stands for 256. -/
def read_le (buffer_size : Int) : Nat :=
  if (hex_decode ((cstr (csim_read buffer_size)).drop 8)).getD 0 0 = 0 then 256
  else (hex_decode ((cstr (csim_read buffer_size)).drop 8)).getD 0 0

/-- The select exchange of EF(ODF). -/
def Run.odf_select {σ : Type} (r : Run σ) : Res σ :=
  csim_send r.tr r.app.modem (csim_select (str "5031")) r.app.buf r.buffer_size

/-- The read exchange of EF(ODF). -/
def Run.odf_read {σ : Type} (r : Run σ) : Res σ :=
  csim_send r.tr r.odf_select.modem (csim_read r.buffer_size) r.odf_select.buf r.buffer_size

/-- The select exchange of EF(DODF). -/
def Run.dodf_select {σ : Type} (r : Run σ) : Res σ :=
  csim_send r.tr r.odf_file.modem (csim_select r.odf_path.2) r.odf_file.buf r.buffer_size

/-- The read exchange of EF(DODF). -/
def Run.dodf_read {σ : Type} (r : Run σ) : Res σ :=
  csim_send r.tr r.dodf_select.modem (csim_read r.buffer_size) r.dodf_select.buf
    r.buffer_size

end SimBootstrap

namespace Asn1

/-- The EF(ODF) test vector `ef_odf_bytes` of `tests/lib/pkcs15/src/main.c`. -/
def ef_odf_bytes : List Nat := [0xa7, 0x06, 0x30, 0x04, 0x04, 0x02, 0x64, 0x30]

/-- The innermost step of the walk of the EF(ODF) test vector: a header, then its
octet string stored as hex text in a path buffer of capacity 5. -/
def walk_path (ctx : asn1_ctx_t) (path : List Nat) : asn1_ctx_t × List Nat :=
  asn1_dec_octet_string (asn1_dec_head ctx 0 0).ctx (asn1_dec_head ctx 0 0).len path 5

/-- The middle step of the walk: a header, then `asn1_dec_sequence` over its content
with `walk_path` as sub-parser. -/
def walk_entry (ctx : asn1_ctx_t) (path : List Nat) : asn1_ctx_t × List Nat :=
  asn1_dec_sequence (asn1_dec_head ctx 0 0).ctx (asn1_dec_head ctx 0 0).len path walk_path

/-- The walk: a header, then `asn1_dec_sequence` over its content with `walk_entry`
as sub-parser. -/
def walk_odf (ctx : asn1_ctx_t) (path : List Nat) : asn1_ctx_t × List Nat :=
  asn1_dec_sequence (asn1_dec_head ctx 0 0).ctx (asn1_dec_head ctx 0 0).len path walk_entry

end Asn1

/-! ## Exchanges of `csim_send` -/

namespace SimBootstrap

theorem csim_send_sent {σ : Type} (tr : Transport σ) (m : Modem σ) (c b : List Nat) (n : Int) :
    (csim_send tr m c b n).modem.sent = if fits c n then m.sent ++ [at_text c] else m.sent := by
  unfold csim_send fits
  dsimp only
  split_ifs <;> first | rfl | omega

theorem csim_send_ret_pos {σ : Type} (tr : Transport σ) (m : Modem σ) (c b : List Nat) (n : Int) :
    0 < (csim_send tr m c b n).ret ↔
      fits c n ∧ (reply_to tr m c n).rc = 2 ∧ 4 < (reply_to tr m c n).length ∧
        status_word (buffer_after tr m c b n) (reply_to tr m c n).length = str "9000" := by
  unfold csim_send fits buffer_after reply_to EINVAL
  dsimp only
  generalize tr m.st (at_text c) (csim_fmt n) = out
  generalize status_word _ _ = sw
  split_ifs with h1 h2 h3 h4
  · constructor
    · intro h; simp at h
    · rintro ⟨⟨h, -⟩, -⟩; omega
  · constructor
    · intro h; simp at h
    · rintro ⟨⟨-, h⟩, -⟩; omega
  · constructor
    · intro h; dsimp only at h; omega
    · rintro ⟨-, h, -⟩; omega
  · constructor
    · intro h; simp at h
    · rintro ⟨-, h5, h6, h7⟩
      rcases h4 with h4 | h4 | h4
      · exact absurd h5 h4
      · omega
      · exact absurd h7 h4
  · have h5 : out.2.rc = 2 := by
      by_contra h; exact h4 (Or.inl h)
    have h6 : ¬ out.2.length < 4 := fun h => h4 (Or.inr (Or.inl h))
    have h7 : sw = str "9000" := by
      by_contra h; exact h4 (Or.inr (Or.inr h))
    constructor
    · intro h; dsimp only at h
      exact ⟨⟨by omega, by omega⟩, h5, by omega, h7⟩
    · intro _; dsimp only; omega

end SimBootstrap

namespace SimBootstrap

theorem utoaAux_length_pos (fuel n : Nat) : 0 < (utoaAux (fuel + 1) n).length := by
  unfold utoaAux
  split_ifs <;> simp

theorem hexDigit_ne_zero (d : Nat) : hexDigit d ≠ 0 := by
  unfold hexDigit; split_ifs <;> omega

theorem csim_read_eq (n : Int) :
    csim_read n =
      if n < SIM_RECORD_BUFFER_MAX then
        str "01B00000" ++ hex2 (Int.tdiv (n - 4) 2 % 256).toNat ++ [0]
      else str "01B0000000" ++ [0] := by
  unfold csim_read
  split_ifs
  · simp [snprintf_write, overwrite, hex2, str]
  · rfl

end SimBootstrap

/-! ## The trace of `sim_bootstrap_read` -/

namespace SimBootstrap

theorem sim_bootstrap_read_eq {σ : Type} (tr : Transport σ) (odf dodf : Decoder)
    (m : Modem σ) (b : List Nat) (n : Int) :
    sim_bootstrap_read tr odf dodf m b n =
      if (csim_send tr m cmd_open b n).ret ≤ 0 then csim_send tr m cmd_open b n
      else if (pending tr odf dodf m b n).ret ≥ 0
          ∧ (close_send tr (pending tr odf dodf m b n).modem).ret < 0 then
        ⟨(close_send tr (pending tr odf dodf m b n).modem).ret, (pending tr odf dodf m b n).buf,
          (close_send tr (pending tr odf dodf m b n).modem).modem⟩
      else
        ⟨(pending tr odf dodf m b n).ret, (pending tr odf dodf m b n).buf,
          (close_send tr (pending tr odf dodf m b n).modem).modem⟩ := by
  rfl

theorem close_send_sent {σ : Type} (tr : Transport σ) (m : Modem σ) :
    (close_send tr m).modem.sent = m.sent ++ [at_text cmd_close] := by
  unfold close_send
  rw [csim_send_sent, if_pos (by decide)]

theorem sim_bootstrap_read_sent {σ : Type} (tr : Transport σ) (odf dodf : Decoder)
    (m : Modem σ) (b : List Nat) (n : Int) (h : 0 < (csim_send tr m cmd_open b n).ret) :
    (sim_bootstrap_read tr odf dodf m b n).modem.sent
      = (pending tr odf dodf m b n).modem.sent ++ [at_text cmd_close] := by
  rw [sim_bootstrap_read_eq, if_neg (by omega)]
  split_ifs <;> exact close_send_sent tr _

end SimBootstrap

/-! ## Buffers: in-place hex decoding and the bytes past what a step wrote -/

namespace SimBootstrap

theorem hex_to_bin_iter_length (d s n : Nat) (mem : List Nat) :
    (hex_to_bin_iter d s n mem).length = mem.length := by
  induction n with
  | zero => rfl
  | succ k ih => simp [hex_to_bin_iter, ih]

theorem hex_to_bin_iter_getElem? (mem : List Nat) (n j : Nat) :
    (hex_to_bin_iter 0 0 n mem)[j]? =
      if j < n ∧ j < mem.length then
        some ((hex_to_nibble (mem.getD (2 * j) 0) * 16
          + hex_to_nibble (mem.getD (2 * j + 1) 0)) % 256)
      else mem[j]? := by
  induction n generalizing j with
  | zero => simp [hex_to_bin_iter]
  | succ k ih =>
    have e0 : (hex_to_bin_iter 0 0 k mem)[2 * k]? = mem[2 * k]? := by
      rw [ih, if_neg (by omega)]
    have e1 : (hex_to_bin_iter 0 0 k mem)[2 * k + 1]? = mem[2 * k + 1]? := by
      rw [ih, if_neg (by omega)]
    simp only [hex_to_bin_iter, Nat.zero_add, List.getD_eq_getElem?_getD, e0, e1]
    rw [List.getElem?_set, hex_to_bin_iter_length]
    by_cases hkj : k = j
    · subst hkj
      rw [if_pos rfl]
      by_cases hk : k < mem.length
      · rw [if_pos hk, if_pos ⟨by omega, hk⟩]
      · rw [if_neg hk, if_neg (by omega)]
        exact (List.getElem?_eq_none (by omega)).symm
    · rw [if_neg hkj, ih]
      by_cases hj : j < k ∧ j < mem.length
      · rw [if_pos hj, if_pos ⟨by omega, hj.2⟩]
        simp [List.getD_eq_getElem?_getD]
      · rw [if_neg hj, if_neg (by omega)]

theorem hex_to_bin_iter_take (mem : List Nat) (n : Nat) (h : 2 * n ≤ mem.length) :
    (hex_to_bin_iter 0 0 n mem).take n = hex_decode (mem.take (2 * n)) := by
  apply List.ext_getElem?
  intro j
  rw [List.getElem?_take, hex_to_bin_iter_getElem?]
  unfold hex_decode
  have hl : (mem.take (2 * n)).length / 2 = n := by
    rw [List.length_take, Nat.min_eq_left h]; omega
  rw [hl, List.getElem?_map]
  by_cases hj : j < n
  · rw [if_pos hj, if_pos ⟨hj, by omega⟩, List.getElem?_range hj]
    simp only [Option.map_some', List.getD_eq_getElem?_getD]
    rw [List.getElem?_take, List.getElem?_take, if_pos (by omega), if_pos (by omega)]
  · rw [if_neg hj, List.getElem?_eq_none (by simpa using Nat.le_of_not_lt hj)]
    rfl

theorem hex_to_bin_iter_append (q t : List Nat) (n : Nat) (h : 2 * n ≤ q.length) :
    hex_to_bin_iter 0 0 n (q ++ t) = hex_to_bin_iter 0 0 n q ++ t := by
  apply List.ext_getElem?
  intro j
  rw [hex_to_bin_iter_getElem?, @List.getElem?_append _ (hex_to_bin_iter 0 0 n q) t j,
    hex_to_bin_iter_length, hex_to_bin_iter_getElem?]
  by_cases hj : j < n
  · have hq : j < q.length := by omega
    rw [if_pos ⟨hj, by rw [List.length_append]; omega⟩, if_pos hq, if_pos ⟨hj, hq⟩]
    simp only [List.getD_eq_getElem?_getD]
    rw [List.getElem?_append_left (by omega), List.getElem?_append_left (by omega)]
  · rw [if_neg (by omega), List.getElem?_append]
    by_cases hq : j < q.length
    · rw [if_pos hq, if_pos hq, if_neg (by omega)]
    · rw [if_neg hq, if_neg hq]

theorem overwrite_length_le (w b : List Nat) : w.length ≤ (overwrite w b).length := by
  simp [overwrite]

theorem overwrite_overwrite (w v b : List Nat) :
    overwrite w (overwrite v b) = overwrite (overwrite w v) b := by
  unfold overwrite
  rw [List.drop_append_eq_append_drop, List.drop_drop, List.append_assoc]
  congr 2
  simp only [List.length_append, List.length_drop]
  congr 1
  omega

theorem overwrite_nil (b : List Nat) : overwrite [] b = b := by
  simp [overwrite]

theorem snprintf_write_overwrite (v b : List Nat) (n : Int) (text : List Nat) :
    snprintf_write (overwrite v b) n text = overwrite (snprintf_write v n text) b := by
  unfold snprintf_write
  split_ifs
  · rfl
  · rw [overwrite_overwrite]

theorem take_overwrite (v b : List Nat) (k : Nat) (h : k ≤ v.length) :
    (overwrite v b).take k = v.take k := by
  unfold overwrite
  rw [List.take_append_of_le_length h]

theorem status_word_overwrite (v b : List Nat) (len : Int)
    (h : (len - 4).toNat + 4 ≤ v.length) :
    status_word (overwrite v b) len = status_word v len := by
  unfold status_word overwrite
  rw [List.drop_append_of_le_length (by omega), List.take_append_of_le_length]
  rw [List.length_drop]; omega

end SimBootstrap

namespace SimBootstrap

theorem csim_send_over {σ : Type} (tr : Transport σ) (m : Modem σ) (c v b : List Nat) (n : Int)
    (hg : send_guard tr m c v n) :
    csim_send tr m c (overwrite v b) n = (csim_send tr m c v n).over b := by
  unfold send_guard buffer_after reply_to at hg
  unfold csim_send Res.over
  dsimp only
  rw [snprintf_write_overwrite, overwrite_overwrite]
  by_cases h4 : (tr m.st (at_text c) (csim_fmt n)).2.length < 4
  · have hl : ∀ s : List Nat, ((tr m.st (at_text c) (csim_fmt n)).2.rc ≠ 2
        ∨ (tr m.st (at_text c) (csim_fmt n)).2.length < 4
        ∨ s ≠ str "9000") := fun _ => Or.inr (Or.inl h4)
    split_ifs <;> first | rfl | exact absurd (hl _) (by assumption)
  · rw [status_word_overwrite _ b _ (by omega)]
    split_ifs <;> rfl

theorem csim_send_buf_length {σ : Type} (tr : Transport σ) (m : Modem σ) (c v : List Nat)
    (n : Int) (h : 0 < (csim_send tr m c v n).ret) :
    (csim_send tr m c v n).ret = (reply_to tr m c n).length - 4
      ∧ (csim_send tr m c v n).buf = buffer_after tr m c v n := by
  have hp := (csim_send_ret_pos tr m c v n).1 h
  obtain ⟨⟨hf1, hf2⟩, hrc, hlen, hsw⟩ := hp
  unfold buffer_after reply_to at *
  unfold csim_send
  dsimp only
  rw [if_neg (by omega), if_neg (by omega), if_neg (by omega), if_neg (by
    intro hh
    rcases hh with hh | hh | hh
    · exact hh hrc
    · omega
    · exact hh hsw)]
  exact ⟨rfl, rfl⟩

theorem csim_read_file_over {σ : Type} (tr : Transport σ) (m : Modem σ) (p v b : List Nat)
    (n : Int)
    (hg : read_guard tr m p v n) :
    csim_read_file tr m p (overwrite v b) n = (csim_read_file tr m p v n).over b := by
  obtain ⟨hg1, hg2⟩ := hg
  unfold csim_read_file
  dsimp only
  rw [csim_send_over tr m (csim_select p) v b n hg1]
  generalize csim_send tr m (csim_select p) v n = r1 at hg2 ⊢
  by_cases h1 : r1.ret ≤ 0
  · rw [if_pos (by simpa [Res.over] using h1), if_pos h1]
  · rw [if_neg (by simpa [Res.over] using h1), if_neg h1]
    simp only [Res.over]
    rw [csim_send_over tr r1.modem (csim_read n) r1.buf b n hg2]
    by_cases h2 : (csim_send tr r1.modem (csim_read n) r1.buf n).ret ≤ 0
    · rw [if_pos (by simpa [Res.over] using h2), if_pos h2]
      rfl
    · rw [if_neg (by simpa [Res.over] using h2), if_neg h2]
      obtain ⟨e1, e2⟩ := csim_send_buf_length tr r1.modem (csim_read n) r1.buf n (by omega)
      simp only [Res.over, hex_to_bin]
      have hlen : 2 * (((csim_send tr r1.modem (csim_read n) r1.buf n).ret.toNat + 1) / 2)
          ≤ (csim_send tr r1.modem (csim_read n) r1.buf n).buf.length := by
        unfold send_guard at hg2
        rw [e2, e1]; omega
      congr 1
      unfold overwrite
      rw [hex_to_bin_iter_append _ _ _ hlen, hex_to_bin_iter_length]

end SimBootstrap

/-! ## The steps of a run -/

namespace SimBootstrap

theorem Run.records_eq {σ : Type} (r : Run σ) :
    sim_bootstrap_read_records r.tr r.odf r.dodf r.app.modem r.app.buf r.buffer_size =
      if r.odf_file.ret ≤ 0 then r.odf_file
      else if r.odf_path.1 = false ∨ r.odf_path.2.getD 0 0 = 0 then
        ⟨-ENOENT, r.odf_file.buf, r.odf_file.modem⟩
      else if r.dodf_file.ret ≤ 0 then r.dodf_file
      else if r.dodf_path.1 = false ∨ r.dodf_path.2.getD 0 0 = 0 then
        ⟨-ENOENT, r.dodf_file.buf, r.dodf_file.modem⟩
      else r.boot_file := by
  unfold sim_bootstrap_read_records
  simp only [← Run.odf_file.eq_1, ← Run.odf_path.eq_1, ← Run.dodf_file.eq_1,
    ← Run.dodf_path.eq_1, ← Run.boot_file.eq_1]
  split_ifs <;> simp_all

theorem Run.pending_eq {σ : Type} (r : Run σ) :
    pending r.tr r.odf r.dodf r.m r.p_buffer r.buffer_size =
      if r.app.ret > 0 then
        sim_bootstrap_read_records r.tr r.odf r.dodf r.app.modem r.app.buf r.buffer_size
      else r.app := by
  rfl

theorem Run.result_eq {σ : Type} (r : Run σ) (ho : 0 < r.opened.ret)
    (p : Res σ) (hp : pending r.tr r.odf r.dodf r.m r.p_buffer r.buffer_size = p) :
    r.result = if p.ret ≥ 0 ∧ (close_send r.tr p.modem).ret < 0
      then ⟨(close_send r.tr p.modem).ret, p.buf, (close_send r.tr p.modem).modem⟩
      else ⟨p.ret, p.buf, (close_send r.tr p.modem).modem⟩ := by
  unfold Run.opened at ho
  unfold Run.result
  rw [sim_bootstrap_read_eq, if_neg (by omega), hp]

theorem Run.pending_of_succeeds {σ : Type} (r : Run σ) (hs : r.succeeds) :
    pending r.tr r.odf r.dodf r.m r.p_buffer r.buffer_size = r.boot_file := by
  obtain ⟨-, h2, h3, h4, h5, h6, h7, h8, -⟩ := hs
  rw [r.pending_eq, if_pos h2, r.records_eq, if_neg (by omega),
    if_neg (fun h => h.elim (fun a => by simp [h4] at a) h5), if_neg (by omega), if_neg (fun h => h.elim (fun a => by simp [h7] at a) h8)]

theorem Run.result_of_succeeds {σ : Type} (r : Run σ) (hs : r.succeeds)
    (hc : 0 ≤ r.closed.ret) :
    r.result = ⟨r.boot_file.ret, r.boot_file.buf, r.closed.modem⟩ := by
  rw [r.result_eq hs.1 _ (r.pending_of_succeeds hs)]
  unfold Run.closed at hc
  rw [if_neg (by omega)]
  rfl

theorem csim_read_file_pos {σ : Type} (tr : Transport σ) (m : Modem σ) (p b : List Nat) (n : Int)
    (h : 0 < (csim_read_file tr m p b n).ret) :
    0 < (csim_send tr m (csim_select p) b n).ret
      ∧ 0 < (csim_send tr (csim_send tr m (csim_select p) b n).modem (csim_read n)
          (csim_send tr m (csim_select p) b n).buf n).ret
      ∧ csim_read_file tr m p b n =
        ⟨(((csim_send tr (csim_send tr m (csim_select p) b n).modem (csim_read n)
              (csim_send tr m (csim_select p) b n).buf n).ret.toNat + 1) / 2 : Nat),
          hex_to_bin_iter 0 0
            (((csim_send tr (csim_send tr m (csim_select p) b n).modem (csim_read n)
              (csim_send tr m (csim_select p) b n).buf n).ret.toNat + 1) / 2)
            (csim_send tr (csim_send tr m (csim_select p) b n).modem (csim_read n)
              (csim_send tr m (csim_select p) b n).buf n).buf,
          (csim_send tr (csim_send tr m (csim_select p) b n).modem (csim_read n)
              (csim_send tr m (csim_select p) b n).buf n).modem⟩ := by
  unfold csim_read_file at h ⊢
  dsimp only at h ⊢
  by_cases h1 : (csim_send tr m (csim_select p) b n).ret ≤ 0
  · rw [if_pos h1] at h; omega
  · rw [if_neg h1] at h ⊢
    by_cases h2 : (csim_send tr (csim_send tr m (csim_select p) b n).modem (csim_read n)
          (csim_send tr m (csim_select p) b n).buf n).ret ≤ 0
    · rw [if_pos h2] at h; omega
    · rw [if_neg h2]
      exact ⟨by omega, by omega, rfl⟩

theorem csim_read_file_sent_of_pos {σ : Type} (tr : Transport σ) (m : Modem σ) (p b : List Nat)
    (n : Int) (h : 0 < (csim_read_file tr m p b n).ret) :
    (csim_read_file tr m p b n).modem.sent
      = m.sent ++ [at_text (csim_select p), at_text (csim_read n)] := by
  obtain ⟨h1, h2, e⟩ := csim_read_file_pos tr m p b n h
  rw [e]
  dsimp only
  rw [csim_send_sent, if_pos ((csim_send_ret_pos _ _ _ _ _).1 h2).1, csim_send_sent,
    if_pos ((csim_send_ret_pos _ _ _ _ _).1 h1).1]
  simp

theorem csim_select_take (p : List Nat) : csim_select (p.take 4) = csim_select p := by
  unfold csim_select memcpy_at
  congr 2
  simp [List.range_succ, List.getElem?_take]

theorem csim_read_file_take {σ : Type} (tr : Transport σ) (m : Modem σ) (p q b : List Nat)
    (n : Int) (h : p.take 4 = q.take 4) :
    csim_read_file tr m p b n = csim_read_file tr m q b n := by
  unfold csim_read_file
  rw [← csim_select_take p, ← csim_select_take q, h]

end SimBootstrap

/-! ## A run does not depend on the bytes past what it wrote -/

namespace SimBootstrap

theorem Run.over_odf {σ : Type} (r : Run σ) (odf dodf : Decoder) (b : List Nat)
    (g : r.guard_odf) :
    (r.over odf dodf b).opened = r.opened.over b
      ∧ (r.over odf dodf b).app = r.app.over b
      ∧ (r.over odf dodf b).odf_file = r.odf_file.over b
      ∧ (r.over odf dodf b).odf_path = odf (r.odf_file.buf.take r.odf_file.ret.toNat) := by
  obtain ⟨g1, g2, g3, g4⟩ := g
  have e1 : (r.over odf dodf b).opened = r.opened.over b := by
    unfold Run.opened Run.over
    exact csim_send_over r.tr r.m cmd_open r.p_buffer b r.buffer_size g1
  have e2 : (r.over odf dodf b).app = r.app.over b := by
    unfold Run.app
    rw [e1]
    exact csim_send_over r.tr r.opened.modem cmd_select_app r.opened.buf b r.buffer_size g2
  have e3 : (r.over odf dodf b).odf_file = r.odf_file.over b := by
    unfold Run.odf_file
    rw [e2]
    exact csim_read_file_over r.tr r.app.modem (str "5031") r.app.buf b r.buffer_size g3
  refine ⟨e1, e2, e3, ?_⟩
  unfold Run.odf_path
  rw [e3]
  show odf ((overwrite r.odf_file.buf b).take r.odf_file.ret.toNat) = _
  rw [take_overwrite _ _ _ g4]

theorem Run.over_dodf {σ : Type} (r : Run σ) (odf dodf : Decoder) (b : List Nat)
    (g : r.guard_odf) (g2 : r.guard_dodf)
    (hodf : (odf (r.odf_file.buf.take r.odf_file.ret.toNat)).2.take 4 = r.odf_path.2.take 4) :
    (r.over odf dodf b).dodf_file = r.dodf_file.over b
      ∧ (r.over odf dodf b).dodf_path = dodf (r.dodf_file.buf.take r.dodf_file.ret.toNat) := by
  obtain ⟨-, -, e3, e4⟩ := r.over_odf odf dodf b g
  have e5 : (r.over odf dodf b).dodf_file = r.dodf_file.over b := by
    unfold Run.dodf_file
    rw [e3, e4, csim_read_file_take _ _ _ _ _ _ hodf]
    exact csim_read_file_over r.tr r.odf_file.modem r.odf_path.2 r.odf_file.buf b
      r.buffer_size g2.1
  refine ⟨e5, ?_⟩
  unfold Run.dodf_path
  rw [e5]
  show dodf ((overwrite r.dodf_file.buf b).take r.dodf_file.ret.toNat) = _
  rw [take_overwrite _ _ _ g2.2]

theorem Run.over_boot {σ : Type} (r : Run σ) (odf dodf : Decoder) (b : List Nat)
    (g : r.guard_odf) (g2 : r.guard_dodf) (g3 : r.guard_boot)
    (hodf : (odf (r.odf_file.buf.take r.odf_file.ret.toNat)).2.take 4 = r.odf_path.2.take 4)
    (hdodf : (dodf (r.dodf_file.buf.take r.dodf_file.ret.toNat)).2.take 4
      = r.dodf_path.2.take 4) :
    (r.over odf dodf b).boot_file = r.boot_file.over b := by
  obtain ⟨e5, e6⟩ := r.over_dodf odf dodf b g g2 hodf
  unfold Run.boot_file
  rw [e5, e6, csim_read_file_take _ _ _ _ _ _ hdodf]
  exact csim_read_file_over r.tr r.dodf_file.modem r.dodf_path.2 r.dodf_file.buf b
    r.buffer_size g3

theorem getD_zero_of_take {p q : List Nat} (h : p.take 4 = q) (hq : q.getD 0 0 ≠ 0) :
    p.getD 0 0 ≠ 0 := by
  subst h
  simpa [List.getElem?_take] using hq

end SimBootstrap

/-! ## Claims on complete runs: C4, C5, C6, C7 -/

namespace SimBootstrap

theorem Run.boot_file_of_pos {σ : Type} (r : Run σ) (h : 0 < r.boot_file.ret) :
    0 < r.boot_select.ret ∧ 0 < r.boot_read.ret
      ∧ r.boot_file = ⟨((r.boot_read.ret.toNat + 1) / 2 : Nat),
          hex_to_bin_iter 0 0 ((r.boot_read.ret.toNat + 1) / 2) r.boot_read.buf,
          r.boot_read.modem⟩ :=
  csim_read_file_pos r.tr r.dodf_file.modem r.dodf_path.2 r.dodf_file.buf r.buffer_size h

end SimBootstrap

namespace SimBootstrapTest

open SimBootstrap

set_option maxRecDepth 100000 in
theorem success_over (odf dodf : Decoder) (buffer : List Nat)
    (hodf1 : (odf ef_odf_bytes).1 = true) (hodf2 : (odf ef_odf_bytes).2.take 4 = str "6430")
    (hdodf1 : (dodf ef_dodf_bytes).1 = true)
    (hdodf2 : (dodf ef_dodf_bytes).2.take 4 = str "6432") :
    run_test at_csim_success odf dodf buffer
      = ⟨52, overwrite (ref_run at_csim_success).boot_file.buf buffer,
          (ref_run at_csim_success).closed.modem⟩ := by
  have hr : test_run at_csim_success odf dodf buffer
      = (ref_run at_csim_success).over odf dodf buffer := rfl
  have g1 : (ref_run at_csim_success).guard_odf := by decide
  have g2 : (ref_run at_csim_success).guard_dodf := by decide
  have g3 : (ref_run at_csim_success).guard_boot := by decide
  have b1 : (ref_run at_csim_success).odf_file.buf.take
      (ref_run at_csim_success).odf_file.ret.toNat = ef_odf_bytes := by decide
  have b2 : (ref_run at_csim_success).dodf_file.buf.take
      (ref_run at_csim_success).dodf_file.ret.toNat = ef_dodf_bytes := by decide
  have p1 : (odf ((ref_run at_csim_success).odf_file.buf.take
      (ref_run at_csim_success).odf_file.ret.toNat)).2.take 4
      = (ref_run at_csim_success).odf_path.2.take 4 := by
    rw [b1, hodf2]; decide
  have p2 : (dodf ((ref_run at_csim_success).dodf_file.buf.take
      (ref_run at_csim_success).dodf_file.ret.toNat)).2.take 4
      = (ref_run at_csim_success).dodf_path.2.take 4 := by
    rw [b2, hdodf2]; decide
  obtain ⟨e1, e2, e3, e4⟩ := (ref_run at_csim_success).over_odf odf dodf buffer g1
  obtain ⟨e5, e6⟩ := (ref_run at_csim_success).over_dodf odf dodf buffer g1 g2 p1
  have e7 := (ref_run at_csim_success).over_boot odf dodf buffer g1 g2 g3 p1 p2
  rw [b1] at e4
  rw [b2] at e6
  have hs : (test_run at_csim_success odf dodf buffer).succeeds := by
    rw [hr]
    unfold Run.succeeds
    rw [e1, e2, e3, e4, e5, e6, e7]
    simp only [Res.over]
    exact ⟨by decide, by decide, by decide, hodf1, getD_zero_of_take hodf2 (by decide),
      by decide, hdodf1, getD_zero_of_take hdodf2 (by decide), by decide⟩
  have hc : (test_run at_csim_success odf dodf buffer).closed
      = (ref_run at_csim_success).closed := by
    rw [hr]
    unfold Run.closed
    rw [e7]
    rfl
  show (test_run at_csim_success odf dodf buffer).result = _
  rw [Run.result_of_succeeds _ hs (by rw [hc]; decide), hc, hr, e7]
  have h52 : (ref_run at_csim_success).boot_file.ret = 52 := by decide
  simp only [Res.over, h52]

end SimBootstrapTest

namespace SimBootstrap

theorem at_text_csim_select (p : List Nat) (h4 : (p.take 4).length = 4) (hz : 0 ∉ p.take 4) :
    at_text (csim_select p)
      = str "AT+CSIM=20,\"01A40804047FFF" ++ p.take 4 ++ str "00\"" := by
  rw [← csim_select_take]
  generalize p.take 4 = q at h4 hz
  match q, h4, hz with
  | [a, b, c, d], _, hz =>
    have ha : a ≠ 0 := fun h => hz (by simp [h])
    have hb : b ≠ 0 := fun h => hz (by simp [h])
    have hc : c ≠ 0 := fun h => hz (by simp [h])
    have hd : d ≠ 0 := fun h => hz (by simp [h])
    have e : cstr (csim_select [a, b, c, d]) = str "01A40804047FFF" ++ [a, b, c, d] ++ str "00" := by
      simp [cstr, csim_select, memcpy_at, str, List.takeWhile_cons, ha, hb, hc, hd,
        List.range_succ]
    unfold at_text strlen
    rw [e]
    have hl : (str "01A40804047FFF" ++ [a, b, c, d] ++ str "00").length = 20 := by
      simp [str]
    rw [hl]
    have hu : utoa 20 = str "20" := by decide
    rw [hu]
    simp [str]

theorem Run.sent_of_succeeds {σ : Type} (r : Run σ) (hs : r.succeeds) :
    r.result.modem.sent = r.m.sent ++
      [at_text cmd_open, at_text cmd_select_app,
        at_text (csim_select (str "5031")), at_text (csim_read r.buffer_size),
        at_text (csim_select r.odf_path.2), at_text (csim_read r.buffer_size),
        at_text (csim_select r.dodf_path.2), at_text (csim_read r.buffer_size),
        at_text cmd_close] := by
  have hp := r.pending_of_succeeds hs
  obtain ⟨h1, h2, h3, -, -, h6, -, -, h9⟩ := hs
  unfold Run.result
  rw [sim_bootstrap_read_sent _ _ _ _ _ _ h1, hp]
  unfold Run.boot_file at h9 ⊢
  rw [csim_read_file_sent_of_pos _ _ _ _ _ h9]
  unfold Run.dodf_file at h6 ⊢
  rw [csim_read_file_sent_of_pos _ _ _ _ _ h6]
  unfold Run.odf_file at h3 ⊢
  rw [csim_read_file_sent_of_pos _ _ _ _ _ h3]
  unfold Run.app at h2 ⊢
  rw [csim_send_sent, if_pos ((csim_send_ret_pos _ _ _ _ _).1 h2).1]
  unfold Run.opened at h1 ⊢
  rw [csim_send_sent, if_pos ((csim_send_ret_pos _ _ _ _ _).1 h1).1]
  simp

theorem Run.result_of_odf_missing {σ : Type} (r : Run σ)
    (h1 : 0 < r.opened.ret) (h2 : 0 < r.app.ret) (h3 : 0 < r.odf_file.ret)
    (hm : r.odf_path.1 = false ∨ r.odf_path.2.getD 0 0 = 0) :
    r.result = ⟨-ENOENT, r.odf_file.buf, (close_send r.tr r.odf_file.modem).modem⟩ := by
  have hp : pending r.tr r.odf r.dodf r.m r.p_buffer r.buffer_size
      = ⟨-ENOENT, r.odf_file.buf, r.odf_file.modem⟩ := by
    rw [r.pending_eq, if_pos h2, r.records_eq, if_neg (by omega), if_pos hm]
  rw [r.result_eq h1 _ hp, if_neg (by simp [ENOENT])]

theorem Run.result_of_dodf_missing {σ : Type} (r : Run σ)
    (h1 : 0 < r.opened.ret) (h2 : 0 < r.app.ret) (h3 : 0 < r.odf_file.ret)
    (h4 : r.odf_path.1 = true) (h5 : r.odf_path.2.getD 0 0 ≠ 0) (h6 : 0 < r.dodf_file.ret)
    (hm : r.dodf_path.1 = false ∨ r.dodf_path.2.getD 0 0 = 0) :
    r.result = ⟨-ENOENT, r.dodf_file.buf, (close_send r.tr r.dodf_file.modem).modem⟩ := by
  have hp : pending r.tr r.odf r.dodf r.m r.p_buffer r.buffer_size
      = ⟨-ENOENT, r.dodf_file.buf, r.dodf_file.modem⟩ := by
    rw [r.pending_eq, if_pos h2, r.records_eq, if_neg (by omega),
      if_neg (fun h => h.elim (fun a => by simp [h4] at a) h5), if_neg (by omega), if_pos hm]
  rw [r.result_eq h1 _ hp, if_neg (by simp [ENOENT])]

theorem Run.sent_odf_file {σ : Type} (r : Run σ)
    (h1 : 0 < r.opened.ret) (h2 : 0 < r.app.ret) (h3 : 0 < r.odf_file.ret) :
    r.odf_file.modem.sent = r.m.sent ++
      [at_text cmd_open, at_text cmd_select_app,
        at_text (csim_select (str "5031")), at_text (csim_read r.buffer_size)] := by
  unfold Run.odf_file at h3 ⊢
  rw [csim_read_file_sent_of_pos _ _ _ _ _ h3]
  unfold Run.app at h2 ⊢
  rw [csim_send_sent, if_pos ((csim_send_ret_pos _ _ _ _ _).1 h2).1]
  unfold Run.opened at h1 ⊢
  rw [csim_send_sent, if_pos ((csim_send_ret_pos _ _ _ _ _).1 h1).1]
  simp

end SimBootstrap

namespace SimBootstrapTest

open SimBootstrap

set_option maxRecDepth 100000 in
theorem not_found_over (odf dodf : Decoder) (buffer : List Nat)
    (hodf1 : (odf ef_odf_4407_bytes).1 = true)
    (hodf2 : (odf ef_odf_4407_bytes).2.take 4 = str "4407")
    (hdodf : (dodf ef_dodf_empty_bytes).1 = false ∨ (dodf ef_dodf_empty_bytes).2.getD 0 0 = 0) :
    run_test at_csim_bootstrap_not_found odf dodf buffer
      = ⟨-ENOENT, overwrite (ref_run at_csim_bootstrap_not_found).dodf_file.buf buffer,
          (close_send nrf_modem_at_scanf
            (ref_run at_csim_bootstrap_not_found).dodf_file.modem).modem⟩ := by
  have hr : test_run at_csim_bootstrap_not_found odf dodf buffer
      = (ref_run at_csim_bootstrap_not_found).over odf dodf buffer := rfl
  have g1 : (ref_run at_csim_bootstrap_not_found).guard_odf := by decide
  have g2 : (ref_run at_csim_bootstrap_not_found).guard_dodf := by decide
  have b1 : (ref_run at_csim_bootstrap_not_found).odf_file.buf.take
      (ref_run at_csim_bootstrap_not_found).odf_file.ret.toNat = ef_odf_4407_bytes := by decide
  have b2 : (ref_run at_csim_bootstrap_not_found).dodf_file.buf.take
      (ref_run at_csim_bootstrap_not_found).dodf_file.ret.toNat = ef_dodf_empty_bytes := by
    decide
  have p1 : (odf ((ref_run at_csim_bootstrap_not_found).odf_file.buf.take
      (ref_run at_csim_bootstrap_not_found).odf_file.ret.toNat)).2.take 4
      = (ref_run at_csim_bootstrap_not_found).odf_path.2.take 4 := by
    rw [b1, hodf2]; decide
  obtain ⟨e1, e2, e3, e4⟩ := (ref_run at_csim_bootstrap_not_found).over_odf odf dodf buffer g1
  obtain ⟨e5, e6⟩ := (ref_run at_csim_bootstrap_not_found).over_dodf odf dodf buffer g1 g2 p1
  rw [b1] at e4
  rw [b2] at e6
  show (test_run at_csim_bootstrap_not_found odf dodf buffer).result = _
  have r1 : 0 < (ref_run at_csim_bootstrap_not_found).opened.ret := by decide
  have r2 : 0 < (ref_run at_csim_bootstrap_not_found).app.ret := by decide
  have r3 : 0 < (ref_run at_csim_bootstrap_not_found).odf_file.ret := by decide
  have r5 : 0 < (ref_run at_csim_bootstrap_not_found).dodf_file.ret := by decide
  rw [hr, Run.result_of_dodf_missing _ (by rw [e1]; exact r1) (by rw [e2]; exact r2)
    (by rw [e3]; exact r3) (by rw [e4]; exact hodf1)
    (by rw [e4]; exact getD_zero_of_take hodf2 (by decide)) (by rw [e5]; exact r5)
    (by rw [e6]; exact hdodf), e5]
  rfl

end SimBootstrapTest

/-! ## Claims on the close step and on the early exits: C1, C2, C3, C8 -/

namespace SimBootstrap

/-- C2: once the close step is reached (the open exchange gave a positive length),
with pending result `p` and close result `c`, `sim_bootstrap_read` returns `c` if
`p ≥ 0` and `c < 0`, and `p` otherwise; so a negative `p` is returned unchanged
whatever the close exchange gives, and a successful read followed by a failed close
is reported as the close failure. -/
theorem close_result_rule {σ : Type} (tr : Transport σ) (odf dodf : Decoder)
    (m : Modem σ) (p_buffer : List Nat) (buffer_size : Int)
    (hopen : 0 < (csim_send tr m cmd_open p_buffer buffer_size).ret) :
    (sim_bootstrap_read tr odf dodf m p_buffer buffer_size).ret
        = (if 0 ≤ (pending tr odf dodf m p_buffer buffer_size).ret
              ∧ (close_send tr (pending tr odf dodf m p_buffer buffer_size).modem).ret < 0
            then (close_send tr (pending tr odf dodf m p_buffer buffer_size).modem).ret
            else (pending tr odf dodf m p_buffer buffer_size).ret)
      ∧ ((pending tr odf dodf m p_buffer buffer_size).ret < 0 →
          (sim_bootstrap_read tr odf dodf m p_buffer buffer_size).ret
            = (pending tr odf dodf m p_buffer buffer_size).ret)
      ∧ (0 ≤ (pending tr odf dodf m p_buffer buffer_size).ret →
          (close_send tr (pending tr odf dodf m p_buffer buffer_size).modem).ret < 0 →
          (sim_bootstrap_read tr odf dodf m p_buffer buffer_size).ret
            = (close_send tr (pending tr odf dodf m p_buffer buffer_size).modem).ret) := by
  rw [sim_bootstrap_read_eq, if_neg (by omega)]
  refine ⟨?_, ?_, ?_⟩
  · split_ifs <;> rfl
  · intro hp
    rw [if_neg (by omega)]
  · intro hp hc
    rw [if_pos ⟨by omega, hc⟩]

/-- Witness of C2: the run of the test transcript `at_csim_application_not_found`,
where the pending result is `-EINVAL`. -/
theorem close_result_rule_witness :
    (pending SimBootstrapTest.nrf_modem_at_scanf no_entry no_entry
        (SimBootstrapTest.start SimBootstrapTest.at_csim_application_not_found)
        (List.replicate 261 0) 261).ret = -EINVAL
      ∧ (sim_bootstrap_read SimBootstrapTest.nrf_modem_at_scanf no_entry no_entry
        (SimBootstrapTest.start SimBootstrapTest.at_csim_application_not_found)
        (List.replicate 261 0) 261).ret = -EINVAL :=
  ⟨by decide,
    ((close_result_rule SimBootstrapTest.nrf_modem_at_scanf no_entry no_entry
      (SimBootstrapTest.start SimBootstrapTest.at_csim_application_not_found)
      (List.replicate 261 0) 261 (by decide)).2.1 (by decide)).trans (by decide)⟩

/-- C3 (fails as stated): with a buffer of 10 bytes the open-channel `csim_send`
returns the negative value `-EINVAL` from its formatting check, and
`sim_bootstrap_read` returns it after no exchange at all, not after exactly one. -/
theorem open_failure_without_exchange :
    (csim_send bare_transport ⟨(), []⟩ cmd_open (List.replicate 10 0) 10).ret = -EINVAL
      ∧ (sim_bootstrap_read bare_transport no_entry no_entry ⟨(), []⟩
          (List.replicate 10 0) 10).ret = -EINVAL
      ∧ (sim_bootstrap_read bare_transport no_entry no_entry ⟨(), []⟩
          (List.replicate 10 0) 10).modem.sent.length = 0 := by
  decide

/-- C3 (amended): if the open-channel `csim_send` returns a negative value,
`sim_bootstrap_read` returns exactly that value and does nothing more; no close
command is sent; the only exchange is the open command, issued exactly once when
both formatting steps fit, and there is no exchange at all when they do not. -/
theorem open_failure_returned {σ : Type} (tr : Transport σ) (odf dodf : Decoder)
    (m : Modem σ) (p_buffer : List Nat) (buffer_size : Int)
    (hopen : (csim_send tr m cmd_open p_buffer buffer_size).ret < 0) :
    sim_bootstrap_read tr odf dodf m p_buffer buffer_size
        = csim_send tr m cmd_open p_buffer buffer_size
      ∧ (sim_bootstrap_read tr odf dodf m p_buffer buffer_size).ret
        = (csim_send tr m cmd_open p_buffer buffer_size).ret
      ∧ (sim_bootstrap_read tr odf dodf m p_buffer buffer_size).modem.sent
        = (if fits cmd_open buffer_size then m.sent ++ [at_text cmd_open] else m.sent)
      ∧ at_text cmd_open ≠ at_text cmd_close := by
  have e : sim_bootstrap_read tr odf dodf m p_buffer buffer_size
      = csim_send tr m cmd_open p_buffer buffer_size := by
    rw [sim_bootstrap_read_eq, if_pos (by omega)]
  refine ⟨e, by rw [e], ?_, by decide⟩
  rw [e, csim_send_sent]

/-- Witness of C3 (amended): a transport reporting the error `-5` to the open command. -/
theorem open_failure_returned_witness :
    (sim_bootstrap_read (fun (_ : Unit) _ _ => ((), ⟨-5, 0, []⟩)) no_entry no_entry ⟨(), []⟩
        (List.replicate 261 0) 261).ret = -5
      ∧ (sim_bootstrap_read (fun (_ : Unit) _ _ => ((), ⟨-5, 0, []⟩)) no_entry no_entry ⟨(), []⟩
        (List.replicate 261 0) 261).modem.sent = [at_text cmd_open] :=
  ⟨(open_failure_returned (fun (_ : Unit) _ _ => ((), ⟨-5, 0, []⟩)) no_entry no_entry ⟨(), []⟩
      (List.replicate 261 0) 261 (by decide)).2.1.trans (by decide),
    (open_failure_returned (fun (_ : Unit) _ _ => ((), ⟨-5, 0, []⟩)) no_entry no_entry ⟨(), []⟩
      (List.replicate 261 0) 261 (by decide)).2.2.1.trans (by decide)⟩

end SimBootstrap

namespace SimBootstrap

open SimBootstrapTest

/-- C5: in a fully successful run with a buffer of 261 bytes, where the ODF decoder
and the DODF decoder each return a path of four characters, the commands handed to
the transport are exactly the nine of the claim, in its order, the two discovered
paths standing at characters 14..17 of the select template. -/
theorem commands_of_successful_run {σ : Type} (r : Run σ) (hs : r.succeeds)
    (hsize : r.buffer_size = 261)
    (hp1 : (r.odf_path.2.take 4).length = 4) (hz1 : 0 ∉ r.odf_path.2.take 4)
    (hp2 : (r.dodf_path.2.take 4).length = 4) (hz2 : 0 ∉ r.dodf_path.2.take 4) :
    r.result.modem.sent = r.m.sent ++
      [ str "AT+CSIM=10,\"0070000001\"",
        str "AT+CSIM=36,\"01A404040CA000000063504B43532D313500\"",
        str "AT+CSIM=20,\"01A40804047FFF503100\"",
        str "AT+CSIM=10,\"01B0000080\"",
        str "AT+CSIM=20,\"01A40804047FFF" ++ r.odf_path.2.take 4 ++ str "00\"",
        str "AT+CSIM=10,\"01B0000080\"",
        str "AT+CSIM=20,\"01A40804047FFF" ++ r.dodf_path.2.take 4 ++ str "00\"",
        str "AT+CSIM=10,\"01B0000080\"",
        str "AT+CSIM=8,\"01708001\"" ] := by
  rw [r.sent_of_succeeds hs, hsize, at_text_csim_select _ hp1 hz1,
    at_text_csim_select _ hp2 hz2]
  have e1 : at_text cmd_open = str "AT+CSIM=10,\"0070000001\"" := by decide
  have e2 : at_text cmd_select_app
      = str "AT+CSIM=36,\"01A404040CA000000063504B43532D313500\"" := by decide
  have e3 : at_text (csim_select (str "5031")) = str "AT+CSIM=20,\"01A40804047FFF503100\"" := by
    decide
  have e4 : at_text (csim_read 261) = str "AT+CSIM=10,\"01B0000080\"" := by decide
  have e5 : at_text cmd_close = str "AT+CSIM=8,\"01708001\"" := by decide
  rw [e1, e2, e3, e4, e5]

set_option maxRecDepth 100000 in
/-- Witness of C5: the reference run of the success transcript. -/
theorem commands_of_successful_run_witness :
    (ref_run at_csim_success).result.modem.sent = at_csim_success.map Prod.fst :=
  (commands_of_successful_run (ref_run at_csim_success) (by decide) rfl (by decide) (by decide)
    (by decide) (by decide)).trans (by decide)

set_option maxRecDepth 100000 in
/-- C6 (fails as stated): on the transcript `at_csim_success` the number of
exchanges is not 8; the run hands 9 commands to the transport and the transcript
index ends at 9. -/
theorem success_exchanges_not_eight :
    (run_test at_csim_success vector_odf_decode vector_dodf_decode
        (List.replicate 261 0)).modem.sent.length ≠ 8
      ∧ (run_test at_csim_success vector_odf_decode vector_dodf_decode
        (List.replicate 261 0)).modem.sent.length = 9
      ∧ (run_test at_csim_success vector_odf_decode vector_dodf_decode
        (List.replicate 261 0)).modem.st.at_csim_command_num = 9 := by
  decide

set_option maxRecDepth 100000 in
/-- C6 (amended): on the transcript `at_csim_success`, with decoders that answer the
two directory files the way the transcript goes on and with any initial buffer
content, `sim_bootstrap_read` performs exactly 9 exchanges with the transport, the
nine commands of the transcript in its order, and every check of the test transport
passes. -/
theorem success_exchanges_nine (odf dodf : Decoder) (buffer : List Nat)
    (hodf1 : (odf ef_odf_bytes).1 = true) (hodf2 : (odf ef_odf_bytes).2.take 4 = str "6430")
    (hdodf1 : (dodf ef_dodf_bytes).1 = true)
    (hdodf2 : (dodf ef_dodf_bytes).2.take 4 = str "6432") :
    (run_test at_csim_success odf dodf buffer).modem.sent.length = 9
      ∧ (run_test at_csim_success odf dodf buffer).modem.sent = at_csim_success.map Prod.fst
      ∧ (run_test at_csim_success odf dodf buffer).modem.st.at_csim_command_num = 9
      ∧ (run_test at_csim_success odf dodf buffer).modem.st.failed = false := by
  rw [success_over odf dodf buffer hodf1 hodf2 hdodf1 hdodf2]
  dsimp only
  decide

/-- Witness of C6 (amended): the decoders pinned by the test vectors and a buffer
filled with `0xAA`. -/
theorem success_exchanges_nine_witness :
    (run_test at_csim_success vector_odf_decode vector_dodf_decode
        (List.replicate 261 0xAA)).modem.sent.length = 9
      ∧ (run_test at_csim_success vector_odf_decode vector_dodf_decode
        (List.replicate 261 0xAA)).modem.sent = at_csim_success.map Prod.fst
      ∧ (run_test at_csim_success vector_odf_decode vector_dodf_decode
        (List.replicate 261 0xAA)).modem.st.at_csim_command_num = 9
      ∧ (run_test at_csim_success vector_odf_decode vector_dodf_decode
        (List.replicate 261 0xAA)).modem.st.failed = false :=
  success_exchanges_nine vector_odf_decode vector_dodf_decode (List.replicate 261 0xAA)
    (by decide) (by decide) (by decide) (by decide)

set_option maxRecDepth 100000 in
/-- C7: if, after EF(ODF) (respectively EF(DODF)) has been read successfully, its
path decoder returns false or leaves a path whose first character is NUL,
`sim_bootstrap_read` returns `-ENOENT`; the commands it hands to the transport are
those up to that read followed by the close command and nothing else. On the
transcript `at_csim_bootstrap_not_found`, with an ODF decoder answering path 4407 and
a DODF decoder finding no entry in the all-`0xFF` content, the result is `-ENOENT`
after exactly 7 exchanges, the last being the close command. -/
theorem missing_path_gives_enoent :
    (∀ (σ : Type) (r : Run σ), 0 < r.opened.ret → 0 < r.app.ret → 0 < r.odf_file.ret →
        (r.odf_path.1 = false ∨ r.odf_path.2.getD 0 0 = 0) →
        r.result.ret = -ENOENT
          ∧ r.result.modem.sent = r.m.sent ++
            [at_text cmd_open, at_text cmd_select_app,
              at_text (csim_select (str "5031")), at_text (csim_read r.buffer_size),
              at_text cmd_close])
      ∧ (∀ (σ : Type) (r : Run σ), 0 < r.opened.ret → 0 < r.app.ret → 0 < r.odf_file.ret →
        r.odf_path.1 = true → r.odf_path.2.getD 0 0 ≠ 0 → 0 < r.dodf_file.ret →
        (r.dodf_path.1 = false ∨ r.dodf_path.2.getD 0 0 = 0) →
        r.result.ret = -ENOENT
          ∧ r.result.modem.sent = r.m.sent ++
            [at_text cmd_open, at_text cmd_select_app,
              at_text (csim_select (str "5031")), at_text (csim_read r.buffer_size),
              at_text (csim_select r.odf_path.2), at_text (csim_read r.buffer_size),
              at_text cmd_close])
      ∧ (∀ (odf dodf : Decoder) (buffer : List Nat),
        (odf ef_odf_4407_bytes).1 = true → (odf ef_odf_4407_bytes).2.take 4 = str "4407" →
        ((dodf ef_dodf_empty_bytes).1 = false ∨ (dodf ef_dodf_empty_bytes).2.getD 0 0 = 0) →
        (run_test at_csim_bootstrap_not_found odf dodf buffer).ret = -ENOENT
          ∧ (run_test at_csim_bootstrap_not_found odf dodf buffer).modem.sent.length = 7
          ∧ (run_test at_csim_bootstrap_not_found odf dodf buffer).modem.sent
            = at_csim_bootstrap_not_found.map Prod.fst
          ∧ (run_test at_csim_bootstrap_not_found odf dodf buffer).modem.sent.getLast?
            = some (at_text cmd_close)
          ∧ (run_test at_csim_bootstrap_not_found odf dodf buffer).modem.st.at_csim_command_num
            = 7
          ∧ (run_test at_csim_bootstrap_not_found odf dodf buffer).modem.st.failed = false) := by
  refine ⟨?_, ?_, ?_⟩
  · intro σ r h1 h2 h3 hm
    rw [r.result_of_odf_missing h1 h2 h3 hm]
    refine ⟨rfl, ?_⟩
    show (close_send r.tr r.odf_file.modem).modem.sent = _
    rw [close_send_sent, r.sent_odf_file h1 h2 h3]
    simp
  · intro σ r h1 h2 h3 h4 h5 h6 hm
    rw [r.result_of_dodf_missing h1 h2 h3 h4 h5 h6 hm]
    refine ⟨rfl, ?_⟩
    show (close_send r.tr r.dodf_file.modem).modem.sent = _
    rw [close_send_sent]
    unfold Run.dodf_file at h6 ⊢
    rw [csim_read_file_sent_of_pos _ _ _ _ _ h6, r.sent_odf_file h1 h2 h3]
    simp
  · intro odf dodf buffer h1 h2 h3
    rw [not_found_over odf dodf buffer h1 h2 h3]
    dsimp only
    decide

set_option maxRecDepth 100000 in
/-- Witness of C7: the success transcript with a decoder that finds no entry for the
ODF case, the reference run of the not-found transcript for the DODF case, and the
not-found transcript on a buffer filled with `0xAA` for the test part. -/
theorem missing_path_gives_enoent_witness :
    (test_run at_csim_success no_entry no_entry []).result.ret = -ENOENT
      ∧ (ref_run at_csim_bootstrap_not_found).result.ret = -ENOENT
      ∧ (run_test at_csim_bootstrap_not_found vector_odf_decode vector_dodf_decode
          (List.replicate 261 0xAA)).ret = -ENOENT
      ∧ (run_test at_csim_bootstrap_not_found vector_odf_decode vector_dodf_decode
          (List.replicate 261 0xAA)).modem.sent.length = 7 :=
  ⟨(missing_path_gives_enoent.1 TestState (test_run at_csim_success no_entry no_entry [])
      (by decide) (by decide) (by decide) (by decide)).1,
    (missing_path_gives_enoent.2.1 TestState (ref_run at_csim_bootstrap_not_found)
      (by decide) (by decide) (by decide) (by decide) (by decide) (by decide) (by decide)).1,
    (missing_path_gives_enoent.2.2 vector_odf_decode vector_dodf_decode
      (List.replicate 261 0xAA) (by decide) (by decide) (by decide)).1,
    (missing_path_gives_enoent.2.2 vector_odf_decode vector_dodf_decode
      (List.replicate 261 0xAA) (by decide) (by decide) (by decide)).2.1⟩

end SimBootstrap

/-! ## Claims on `asn1_dec_head`: C9, C10 -/

namespace Asn1

theorem land_128_of_lt (l : Nat) (h : l < 0x80) : l &&& 0x80 = 0 := by
  interval_cases l <;> rfl

/-- C9: for every context with no error flag, at least 2 unread bytes, a tag byte
whose low 5 bits are not all set and a length byte `L < 0x80` with
`offset + 2 + L ≤ length`, `asn1_dec_head` returns true, reports that tag and
`len = L`, advances the offset by exactly 2 and leaves the error flag clear. -/
theorem asn1_dec_head_short_form (ctx : asn1_ctx_t) (tag len : Nat)
    (herr : ctx.error = false) (hunread : ctx.offset + 2 ≤ ctx.length)
    (htag : ctx.byte ctx.offset &&& 0x1F ≠ 0x1F)
    (hlen : ctx.byte (ctx.offset + 1) < 0x80)
    (hfit : ctx.offset + 2 + ctx.byte (ctx.offset + 1) ≤ ctx.length) :
    asn1_dec_head ctx tag len
      = ⟨true, ⟨ctx.asnbuf, ctx.length, ctx.offset + 2, false⟩, ctx.byte ctx.offset,
          ctx.byte (ctx.offset + 1)⟩ := by
  unfold asn1_dec_head
  dsimp only
  rw [if_neg (by rw [herr]; simp; omega), if_neg htag,
    if_neg (by rw [land_128_of_lt _ hlen]; simp)]
  unfold asn1_dec_head_value
  dsimp only
  rw [if_neg (by omega), herr]

/-- Witness of C9: the first header of the ODF test vector, `A7 06`. -/
theorem asn1_dec_head_short_form_witness :
    asn1_dec_head ⟨[0xa7, 0x06, 0x30, 0x04, 0x04, 0x02, 0x64, 0x30], 8, 0, false⟩ 0 0
      = ⟨true, ⟨[0xa7, 0x06, 0x30, 0x04, 0x04, 0x02, 0x64, 0x30], 8, 2, false⟩, 0xa7, 6⟩ :=
  asn1_dec_head_short_form ⟨[0xa7, 0x06, 0x30, 0x04, 0x04, 0x02, 0x64, 0x30], 8, 0, false⟩ 0 0
    rfl (by decide) (by decide) (by decide) (by decide)

/-- C10 (the code departs from the claim): on the 4-byte buffer `04 81 01 AA`, a tag,
the length byte `0x80|1`, one length octet and the one declared content byte, all
inside the buffer, `asn1_dec_head` returns false and sets the error flag, because its
check that the header lies within the buffer adds the two bytes already consumed a
second time; with one more byte behind the content the same header is accepted with
`len = 1` and the offset advanced by 3. -/
theorem asn1_dec_head_long_form_rejected :
    asn1_dec_head ⟨[0x04, 0x81, 0x01, 0xAA], 4, 0, false⟩ 0 0
        = ⟨false, ⟨[0x04, 0x81, 0x01, 0xAA], 4, 2, true⟩, 0x04, 0x81⟩
      ∧ asn1_dec_head ⟨[0x04, 0x81, 0x01, 0xAA, 0xBB], 5, 0, false⟩ 0 0
        = ⟨true, ⟨[0x04, 0x81, 0x01, 0xAA, 0xBB], 5, 3, false⟩, 0x04, 1⟩ := by
  decide

end Asn1

/-! ## Claims on the decoding primitives: C11 to C17 -/

namespace Asn1

theorem asn1_len_octets_eq (n : Nat) (ctx : asn1_ctx_t) (acc : Nat) :
    asn1_len_octets n ctx acc
      = (⟨ctx.asnbuf, ctx.length, ctx.offset + n, ctx.error⟩,
          ((List.range n).map (fun i => ctx.byte (ctx.offset + i))).foldl
            (fun a b => a * 256 + b) acc) := by
  induction n generalizing ctx acc with
  | zero => rfl
  | succ k ih =>
    rw [asn1_len_octets, ih, List.range_succ_eq_map]
    simp only [List.map_cons, List.map_map, List.foldl_cons, Nat.add_zero]
    congr 2
    · omega
    · congr 2
      funext i
      simp only [Function.comp, asn1_ctx_t.byte]
      congr 1
      omega

theorem asn1_dec_head_eq (ctx : asn1_ctx_t) (tag len : Nat) :
    asn1_dec_head ctx tag len =
      if ctx.error = true ∨ ctx.offset + 2 > ctx.length then ⟨false, ctx, tag, len⟩
      else if ctx.byte ctx.offset &&& 0x1F = 0x1F then
        ⟨false, ⟨ctx.asnbuf, ctx.length, ctx.offset + 2, true⟩, ctx.byte ctx.offset,
          ctx.byte (ctx.offset + 1)⟩
      else if ctx.byte (ctx.offset + 1) &&& 0x80 ≠ 0 then
        if length_octets ctx > 3 ∨ ctx.offset + 4 + length_octets ctx > ctx.length then
          ⟨false, ⟨ctx.asnbuf, ctx.length, ctx.offset + 2, true⟩, ctx.byte ctx.offset,
            ctx.byte (ctx.offset + 1)⟩
        else if ctx.offset + 2 + length_octets ctx + declared_length ctx > ctx.length then
          ⟨false, ⟨ctx.asnbuf, ctx.length, ctx.offset + 2 + length_octets ctx, true⟩,
            ctx.byte ctx.offset, declared_length ctx⟩
        else
          ⟨true, ⟨ctx.asnbuf, ctx.length, ctx.offset + 2 + length_octets ctx, ctx.error⟩,
            ctx.byte ctx.offset, declared_length ctx⟩
      else if ctx.offset + 2 + ctx.byte (ctx.offset + 1) > ctx.length then
        ⟨false, ⟨ctx.asnbuf, ctx.length, ctx.offset + 2, true⟩, ctx.byte ctx.offset,
          ctx.byte (ctx.offset + 1)⟩
      else
        ⟨true, ⟨ctx.asnbuf, ctx.length, ctx.offset + 2, ctx.error⟩, ctx.byte ctx.offset,
          ctx.byte (ctx.offset + 1)⟩ := by
  unfold asn1_dec_head
  dsimp only
  by_cases h0 : ctx.error = true ∨ ctx.offset + 2 > ctx.length
  · rw [if_pos h0, if_pos h0]
  rw [if_neg h0, if_neg h0]
  by_cases h1 : ctx.byte ctx.offset &&& 0x1F = 0x1F
  · rw [if_pos h1, if_pos h1]
  rw [if_neg h1, if_neg h1]
  by_cases h2 : ctx.byte (ctx.offset + 1) &&& 0x80 ≠ 0
  · have hn : length_octets ctx = ctx.byte (ctx.offset + 1) &&& 0x7F := by
      unfold length_octets; rw [if_pos h2]
    have hd : declared_length ctx = be_value ((List.range (length_octets ctx)).map
        (fun i => ctx.byte (ctx.offset + 2 + i))) := by
      unfold declared_length; rw [if_pos h2]
    rw [if_pos h2, if_pos h2, ← hn]
    by_cases h3 : length_octets ctx > 3 ∨ ctx.offset + 4 + length_octets ctx > ctx.length
    · rw [if_pos (by omega), if_pos h3]
    · rw [if_neg (by omega), if_neg h3, asn1_len_octets_eq]
      unfold asn1_dec_head_value
      dsimp only
      have hv : ((List.range (length_octets ctx)).map (fun i =>
          asn1_ctx_t.byte ⟨ctx.asnbuf, ctx.length, ctx.offset + 2, ctx.error⟩
            (ctx.offset + 2 + i))).foldl (fun a b => a * 256 + b) 0 = declared_length ctx := by
        rw [hd]; rfl
      rw [hv]
  · rw [if_neg h2, if_neg h2]
    rfl

/-- C11: for every context with no error flag and at least 2 unread bytes, if the
tag byte has its low 5 bits all set, `asn1_dec_head` returns false and sets the error
flag, whatever the length byte and the bytes after it are. -/
theorem asn1_dec_head_extended_tag (ctx : asn1_ctx_t) (tag len : Nat)
    (herr : ctx.error = false) (hunread : ctx.offset + 2 ≤ ctx.length)
    (htag : ctx.byte ctx.offset &&& 0x1F = 0x1F) :
    (asn1_dec_head ctx tag len).ok = false ∧ (asn1_dec_head ctx tag len).ctx.error = true := by
  rw [asn1_dec_head_eq, if_neg (by rw [herr]; simp; omega), if_pos htag]
  exact ⟨rfl, rfl⟩

/-- Witness of C11: the padding byte `0xFF` as a tag. -/
theorem asn1_dec_head_extended_tag_witness :
    (asn1_dec_head ⟨[0xFF, 0xFF, 0xFF], 3, 0, false⟩ 0 0).ok = false
      ∧ (asn1_dec_head ⟨[0xFF, 0xFF, 0xFF], 3, 0, false⟩ 0 0).ctx.error = true :=
  asn1_dec_head_extended_tag ⟨[0xFF, 0xFF, 0xFF], 3, 0, false⟩ 0 0 rfl (by decide) (by decide)

end Asn1

namespace Asn1

theorem short_form_lengths (ctx : asn1_ctx_t) (h : ¬ ctx.byte (ctx.offset + 1) &&& 0x80 ≠ 0) :
    length_octets ctx = 0 ∧ declared_length ctx = ctx.byte (ctx.offset + 1) := by
  unfold declared_length length_octets
  rw [if_neg h, if_neg h]
  exact ⟨rfl, rfl⟩

/-- C12 (fails as stated): in the one-byte buffer `30` the header that starts at
the offset has its length byte past the buffer end; `asn1_dec_head` returns false
there, yet it does not set the error flag. -/
theorem asn1_dec_head_dangling_tag :
    (⟨[0x30], 1, 0, false⟩ : asn1_ctx_t).offset ≤ (⟨[0x30], 1, 0, false⟩ : asn1_ctx_t).length
      ∧ (asn1_dec_head ⟨[0x30], 1, 0, false⟩ 0 0).ok = false
      ∧ (asn1_dec_head ⟨[0x30], 1, 0, false⟩ 0 0).ctx.error = false := by
  decide

/-- C12 (amended): for every context with `offset ≤ length`, after `asn1_dec_head`
returns (true or false) the offset is still `≤ length`; if it returns true then
`offset + len ≤ length`; if the two header bytes are in the buffer and the length
octets that follow them or the declared content would extend past the buffer end, it
returns false with the error flag set; and if the flag is clear and fewer than two
unread bytes remain it returns false and leaves the flag clear. -/
theorem asn1_dec_head_bounds (ctx : asn1_ctx_t) (tag len : Nat)
    (h : ctx.offset ≤ ctx.length) :
    (asn1_dec_head ctx tag len).ctx.offset ≤ (asn1_dec_head ctx tag len).ctx.length
      ∧ (asn1_dec_head ctx tag len).ctx.length = ctx.length
      ∧ ((asn1_dec_head ctx tag len).ok = true →
          (asn1_dec_head ctx tag len).ctx.offset + (asn1_dec_head ctx tag len).len
            ≤ (asn1_dec_head ctx tag len).ctx.length)
      ∧ (ctx.offset + 2 ≤ ctx.length →
          (ctx.offset + 2 + length_octets ctx > ctx.length
            ∨ ctx.offset + 2 + length_octets ctx + declared_length ctx > ctx.length) →
          (asn1_dec_head ctx tag len).ok = false
            ∧ (asn1_dec_head ctx tag len).ctx.error = true)
      ∧ (ctx.error = false → ctx.length < ctx.offset + 2 →
          (asn1_dec_head ctx tag len).ok = false
            ∧ (asn1_dec_head ctx tag len).ctx.error = false) := by
  rw [asn1_dec_head_eq]
  by_cases h0 : ctx.error = true ∨ ctx.offset + 2 > ctx.length
  · rw [if_pos h0]
    refine ⟨h, rfl, fun hh => by simp at hh, fun h2 _ => ?_, fun he _ => ⟨rfl, he⟩⟩
    rcases h0 with h0 | h0
    · exact ⟨rfl, h0⟩
    · omega
  rw [if_neg h0]
  have h2 : ctx.offset + 2 ≤ ctx.length := by
    by_contra hc; exact h0 (Or.inr (by omega))
  by_cases h1 : ctx.byte ctx.offset &&& 0x1F = 0x1F
  · rw [if_pos h1]
    exact ⟨h2, rfl, fun hh => by simp at hh, fun _ _ => ⟨rfl, rfl⟩, fun _ hl => by omega⟩
  rw [if_neg h1]
  by_cases h3 : ctx.byte (ctx.offset + 1) &&& 0x80 ≠ 0
  · rw [if_pos h3]
    by_cases h4 : length_octets ctx > 3 ∨ ctx.offset + 4 + length_octets ctx > ctx.length
    · rw [if_pos h4]
      exact ⟨h2, rfl, fun hh => by simp at hh, fun _ _ => ⟨rfl, rfl⟩, fun _ hl => by omega⟩
    rw [if_neg h4]
    by_cases h5 : ctx.offset + 2 + length_octets ctx + declared_length ctx > ctx.length
    · rw [if_pos h5]
      exact ⟨by dsimp only; omega, rfl, fun hh => by simp at hh, fun _ _ => ⟨rfl, rfl⟩,
        fun _ hl => by omega⟩
    · rw [if_neg h5]
      exact ⟨by dsimp only; omega, rfl, fun _ => by dsimp only; omega,
        fun _ hp => by omega, fun _ hl => by omega⟩
  · rw [if_neg h3]
    obtain ⟨e1, e2⟩ := short_form_lengths ctx h3
    rw [e1, e2]
    by_cases h5 : ctx.offset + 2 + ctx.byte (ctx.offset + 1) > ctx.length
    · rw [if_pos h5]
      exact ⟨h2, rfl, fun hh => by simp at hh, fun _ _ => ⟨rfl, rfl⟩, fun _ hl => by omega⟩
    · rw [if_neg h5]
      exact ⟨h2, rfl, fun _ => by dsimp only; omega, fun _ hp => by omega,
        fun _ hl => by omega⟩

/-- Witness of C12 (amended): the header `04 05` followed by only two content bytes. -/
theorem asn1_dec_head_bounds_witness :
    (asn1_dec_head ⟨[0x04, 0x05, 0xAA, 0xBB], 4, 0, false⟩ 0 0).ok = false
      ∧ (asn1_dec_head ⟨[0x04, 0x05, 0xAA, 0xBB], 4, 0, false⟩ 0 0).ctx.error = true :=
  (asn1_dec_head_bounds ⟨[0x04, 0x05, 0xAA, 0xBB], 4, 0, false⟩ 0 0 (by decide)).2.2.2.1
    (by decide) (by decide)

end Asn1

namespace Asn1

theorem asn1_dec_head_of_error (ctx : asn1_ctx_t) (tag len : Nat) (herr : ctx.error = true) :
    asn1_dec_head ctx tag len = ⟨false, ctx, tag, len⟩ := by
  rw [asn1_dec_head_eq, if_pos (Or.inl herr)]

theorem asn1_dec_head_keeps_error (ctx : asn1_ctx_t) (tag len : Nat) (herr : ctx.error = true) :
    (asn1_dec_head ctx tag len).ctx.error = true := by
  rw [asn1_dec_head_of_error ctx tag len herr]
  exact herr

theorem asn1_dec_octet_string_keeps_error (ctx : asn1_ctx_t) (len : Nat) (value : List Nat)
    (max_len : Nat) (herr : ctx.error = true) :
    (asn1_dec_octet_string ctx len value max_len).1.error = true := by
  unfold asn1_dec_octet_string
  split_ifs
  · rfl
  · exact herr

/-- C13 (fails as stated): on the 2-byte buffer `04 00` with the error flag set, a
call of `asn1_dec_sequence` whose sub-parser does nothing leaves the flag clear, and
the next `asn1_dec_head` returns true. -/
theorem error_flag_cleared_by_sequence :
    (asn1_dec_sequence ⟨[0x04, 0x00], 2, 0, true⟩ 0 () (fun c d => (c, d))).1.error = false
      ∧ (asn1_dec_head
          (asn1_dec_sequence ⟨[0x04, 0x00], 2, 0, true⟩ 0 () (fun c d => (c, d))).1 0 0).ok
        = true := by
  decide

/-- C13 (amended): once a context's error flag is set, it is still set after any
sequence of `asn1_dec_head`, `asn1_dec_octet_string`, `asn1_dec_skip` and
`asn1_dec_sequence` calls in which every sub-parser returns with the error flag of
its sub-context set (`asn1_dec_sequence` copies that flag into the context), in
particular after any sequence of the first three; every `asn1_dec_head` on the
context then returns false. -/
theorem error_flag_kept {δ : Type} (ops : List (Op δ)) (s : asn1_ctx_t × δ) (tag len : Nat)
    (herr : s.1.error = true) (hsub : sub_parsers_fail ops s) :
    (run ops s).1.error = true ∧ (asn1_dec_head (run ops s).1 tag len).ok = false := by
  have key : (run ops s).1.error = true := by
    induction ops generalizing s with
    | nil => exact herr
    | cons op rest ih =>
      show (run rest (op.apply s)).1.error = true
      cases op with
      | head t l =>
        exact ih _ (asn1_dec_head_keeps_error s.1 t l herr) hsub
      | octet_string l v mx =>
        exact ih _ (asn1_dec_octet_string_keeps_error s.1 l v mx herr) hsub
      | sequence l f =>
        exact ih _ hsub.1 hsub.2
      | skip l =>
        exact ih _ herr hsub
  refine ⟨key, ?_⟩
  rw [asn1_dec_head_of_error _ tag len key]

/-- Witness of C13 (amended): a head, an octet string, a skip and a sequence whose
sub-parser reads a header with an extended tag, on a context whose flag is set. -/
theorem error_flag_kept_witness :
    (run [Op.head 0 0, Op.octet_string 1 [] 5, Op.skip 1,
        Op.sequence 2 (fun c (d : Unit) => ((asn1_dec_head c 0 0).ctx, d))]
        (⟨[0x04, 0x00, 0x1F, 0x00], 4, 0, true⟩, ())).1.error = true
      ∧ (asn1_dec_head
        (run [Op.head 0 0, Op.octet_string 1 [] 5, Op.skip 1,
          Op.sequence 2 (fun c (d : Unit) => ((asn1_dec_head c 0 0).ctx, d))]
          (⟨[0x04, 0x00, 0x1F, 0x00], 4, 0, true⟩, ())).1 7 7).ok = false :=
  error_flag_kept
    [Op.head 0 0, Op.octet_string 1 [] 5, Op.skip 1,
      Op.sequence 2 (fun c (d : Unit) => ((asn1_dec_head c 0 0).ctx, d))]
    (⟨[0x04, 0x00, 0x1F, 0x00], 4, 0, true⟩, ()) 7 7 rfl
    (by simp only [sub_parsers_fail, Op.apply]; decide)

/-- C14: `asn1_dec_head` called on a context whose error flag is set returns false
and changes nothing: the offset, the error flag and the caller's `tag` and `len` are
left as they were. -/
theorem asn1_dec_head_error_frame (ctx : asn1_ctx_t) (tag len : Nat)
    (herr : ctx.error = true) :
    (asn1_dec_head ctx tag len).ok = false
      ∧ (asn1_dec_head ctx tag len).ctx = ctx
      ∧ (asn1_dec_head ctx tag len).tag = tag
      ∧ (asn1_dec_head ctx tag len).len = len := by
  rw [asn1_dec_head_of_error ctx tag len herr]
  exact ⟨rfl, rfl, rfl, rfl⟩

/-- Witness of C14: a well-formed header behind a set error flag. -/
theorem asn1_dec_head_error_frame_witness :
    (asn1_dec_head ⟨[0x04, 0x00], 2, 0, true⟩ 7 9).ok = false
      ∧ (asn1_dec_head ⟨[0x04, 0x00], 2, 0, true⟩ 7 9).ctx = ⟨[0x04, 0x00], 2, 0, true⟩
      ∧ (asn1_dec_head ⟨[0x04, 0x00], 2, 0, true⟩ 7 9).tag = 7
      ∧ (asn1_dec_head ⟨[0x04, 0x00], 2, 0, true⟩ 7 9).len = 9 :=
  asn1_dec_head_error_frame ⟨[0x04, 0x00], 2, 0, true⟩ 7 9 rfl

/-- C15: `asn1_dec_octet_string` with `len ≥ max_len` sets the error flag, writes
nothing to the output buffer and leaves the offset unchanged. -/
theorem asn1_dec_octet_string_too_long (ctx : asn1_ctx_t) (len : Nat) (value : List Nat)
    (max_len : Nat) (hlen : len ≥ max_len) :
    (asn1_dec_octet_string ctx len value max_len).1.error = true
      ∧ (asn1_dec_octet_string ctx len value max_len).2 = value
      ∧ (asn1_dec_octet_string ctx len value max_len).1.offset = ctx.offset
      ∧ (asn1_dec_octet_string ctx len value max_len).1
        = ⟨ctx.asnbuf, ctx.length, ctx.offset, true⟩ := by
  unfold asn1_dec_octet_string
  rw [if_pos hlen]
  exact ⟨rfl, rfl, rfl, rfl⟩

/-- Witness of C15: an octet string of 5 bytes for an output buffer of 5 bytes. -/
theorem asn1_dec_octet_string_too_long_witness :
    (asn1_dec_octet_string ⟨[1, 2, 3, 4, 5], 5, 0, false⟩ 5 [9, 9, 9, 9, 9] 5).1.error = true
      ∧ (asn1_dec_octet_string ⟨[1, 2, 3, 4, 5], 5, 0, false⟩ 5 [9, 9, 9, 9, 9] 5).2
        = [9, 9, 9, 9, 9]
      ∧ (asn1_dec_octet_string ⟨[1, 2, 3, 4, 5], 5, 0, false⟩ 5 [9, 9, 9, 9, 9] 5).1.offset = 0
      ∧ (asn1_dec_octet_string ⟨[1, 2, 3, 4, 5], 5, 0, false⟩ 5 [9, 9, 9, 9, 9] 5).1
        = ⟨[1, 2, 3, 4, 5], 5, 0, true⟩ :=
  asn1_dec_octet_string_too_long ⟨[1, 2, 3, 4, 5], 5, 0, false⟩ 5 [9, 9, 9, 9, 9] 5
    (by decide)

end Asn1

namespace Asn1

open SimBootstrap

theorem hi_nibble (b : Nat) : (b &&& 0xF0) >>> 4 = b / 16 % 16 := by
  apply Nat.eq_of_testBit_eq
  intro i
  have h240 : (0xF0 : Nat) = 15 <<< 4 := by decide
  have h16 : (16 : Nat) = 2 ^ 4 := by decide
  have h15 : (15 : Nat) = 2 ^ 4 - 1 := by decide
  rw [Nat.testBit_shiftRight, Nat.testBit_and, h240, Nat.testBit_shiftLeft, h16,
    Nat.testBit_mod_two_pow, ← Nat.shiftRight_eq_div_pow, Nat.testBit_shiftRight, h15,
    Nat.testBit_two_pow_sub_one]
  simp [Bool.and_comm]

theorem lo_nibble (b : Nat) : b &&& 0x0F = b % 16 := by
  have h := Nat.and_pow_two_sub_one_eq_mod b 4
  simpa using h

theorem hex_chr_eq (k : Nat) (h : k < 16) : hex_chr.getD k 0 = hexDigit k := by
  interval_cases k <;> rfl

theorem copy_to_hex_chars_eq (l : List Nat) : copy_to_hex_chars l = hex_text l ++ [0] := by
  induction l with
  | nil => rfl
  | cons b rest ih =>
    rw [copy_to_hex_chars, ih, hi_nibble, lo_nibble, hex_chr_eq _ (Nat.mod_lt _ (by decide)),
      hex_chr_eq _ (Nat.mod_lt _ (by decide))]
    rfl

theorem hex_text_length (l : List Nat) : (hex_text l).length = 2 * l.length := by
  induction l with
  | nil => rfl
  | cons b rest ih =>
    simp only [hex_text, hex2, List.length_append, List.length_cons, List.length_nil, ih]
    omega

theorem bytes_length (ctx : asn1_ctx_t) (len : Nat) : (ctx.bytes len).length = len := by
  simp [asn1_ctx_t.bytes]

/-- C16: `asn1_dec_octet_string` with `len < max_len` writes to the output the
`2 * len` uppercase hexadecimal characters of the bytes at the positions
`offset .. offset + len - 1`, high nibble first for each byte, followed by a NUL,
advances the offset by exactly `len` and leaves the error flag unchanged. -/
theorem asn1_dec_octet_string_hex (ctx : asn1_ctx_t) (len : Nat) (value : List Nat)
    (max_len : Nat) (hlen : len < max_len) :
    (asn1_dec_octet_string ctx len value max_len).2
        = overwrite (hex_text (ctx.bytes len) ++ [0]) value
      ∧ (hex_text (ctx.bytes len)).length = 2 * len
      ∧ (asn1_dec_octet_string ctx len value max_len).2.take (2 * len)
        = hex_text (ctx.bytes len)
      ∧ (asn1_dec_octet_string ctx len value max_len).2.drop (2 * len)
        = 0 :: value.drop (2 * len + 1)
      ∧ (asn1_dec_octet_string ctx len value max_len).1
        = ⟨ctx.asnbuf, ctx.length, ctx.offset + len, ctx.error⟩ := by
  have hl : (hex_text (ctx.bytes len)).length = 2 * len := by
    rw [hex_text_length, bytes_length]
  have e : (asn1_dec_octet_string ctx len value max_len).2
      = overwrite (hex_text (ctx.bytes len) ++ [0]) value := by
    unfold asn1_dec_octet_string
    rw [if_neg (by omega)]
    show copy_to_hex value ctx.asnbuf ctx.offset len = _
    unfold copy_to_hex
    rw [copy_to_hex_chars_eq]
    rfl
  refine ⟨e, hl, ?_, ?_, ?_⟩
  · rw [e]
    unfold overwrite
    rw [List.append_assoc, List.take_append_of_le_length (by omega), List.take_of_length_le
      (by omega)]
  · rw [e]
    unfold overwrite
    rw [List.append_assoc, List.drop_append_of_le_length (by omega), List.drop_of_length_le
      (by omega)]
    simp [hl]
  · unfold asn1_dec_octet_string
    rw [if_neg (by omega)]

/-- Witness of C16: the path of the ODF test vector, 2 bytes at offset 6, into a
5-byte buffer. -/
theorem asn1_dec_octet_string_hex_witness :
    (asn1_dec_octet_string ⟨[0xa7, 0x06, 0x30, 0x04, 0x04, 0x02, 0x64, 0x30], 8, 6, false⟩ 2
        [0, 0, 0, 0, 0] 5).2 = str "6430" ++ [0] :=
  (asn1_dec_octet_string_hex ⟨[0xa7, 0x06, 0x30, 0x04, 0x04, 0x02, 0x64, 0x30], 8, 6, false⟩ 2
    [0, 0, 0, 0, 0] 5 (by decide)).1.trans (by decide)

/-- C17: `asn1_dec_sequence(ctx, len, data, f)` runs `f` on a fresh sub-context whose
buffer begins at the current offset of `ctx`, whose length is `len`, whose offset is
0 and whose error flag is clear; afterwards the offset of `ctx` has advanced by
exactly `len`, however many bytes `f` consumed, and the error flag of `ctx` equals
the error flag of the sub-context after `f` returned. -/
theorem asn1_dec_sequence_sub_context {δ : Type} (ctx : asn1_ctx_t) (len : Nat) (data : δ)
    (f : asn1_ctx_t → δ → asn1_ctx_t × δ) :
    (∀ i, (⟨ctx.asnbuf.drop ctx.offset, len, 0, false⟩ : asn1_ctx_t).byte i
        = ctx.byte (ctx.offset + i))
      ∧ asn1_dec_sequence ctx len data f
        = (⟨ctx.asnbuf, ctx.length, ctx.offset + len,
            (f ⟨ctx.asnbuf.drop ctx.offset, len, 0, false⟩ data).1.error⟩,
          (f ⟨ctx.asnbuf.drop ctx.offset, len, 0, false⟩ data).2) := by
  refine ⟨?_, rfl⟩
  intro i
  simp [asn1_ctx_t.byte, List.getElem?_drop]

theorem hex_decode_cons_cons (x y : Nat) (t : List Nat) :
    hex_decode (x :: y :: t)
      = (hex_to_nibble x * 16 + hex_to_nibble y) % 256 :: hex_decode t := by
  unfold hex_decode
  have hl : (x :: y :: t).length / 2 = t.length / 2 + 1 := by
    simp only [List.length_cons]; omega
  rw [hl, List.range_succ_eq_map, List.map_cons, List.map_map]
  congr 1

theorem nibble_of_hexDigit (d : Nat) (h : d < 16) : hex_to_nibble (hexDigit d) = d := by
  interval_cases d <;> rfl

theorem hex_decode_hex_text (b : List Nat) (hb : ∀ x ∈ b, x < 256) :
    hex_decode (hex_text b) = b := by
  induction b with
  | nil => rfl
  | cons x rest ih =>
    have hx : x < 256 := hb x (by simp)
    show hex_decode (hexDigit (x / 16 % 16) :: hexDigit (x % 16) :: hex_text rest) = _
    rw [hex_decode_cons_cons, nibble_of_hexDigit _ (Nat.mod_lt _ (by decide)),
      nibble_of_hexDigit _ (Nat.mod_lt _ (by decide)), ih (fun y hy => hb y (by simp [hy]))]
    congr 1
    omega

theorem map_getD_range (b : List Nat) :
    (List.range b.length).map (fun i => b.getD (0 + i) 0) = b := by
  apply List.ext_getElem?
  intro j
  rw [List.getElem?_map]
  by_cases hj : j < b.length
  · rw [List.getElem?_range hj]
    simp [List.getElem?_eq_getElem hj]
  · rw [List.getElem?_eq_none (by simpa using hj), List.getElem?_eq_none (by omega)]
    rfl

/-- C18: for every byte sequence `b`, `hex_to_bin` applied (in place) to the
`2 * |b|` characters that `copy_to_hex` produced for `b` returns `|b|` and yields
exactly `b`. -/
theorem hex_round_trip (b dst : List Nat) (hb : ∀ x ∈ b, x < 256) :
    (hex_to_bin (copy_to_hex dst b 0 b.length) 0 0 ((2 * b.length : Nat) : Int)).1
        = (b.length : Int)
      ∧ (hex_to_bin (copy_to_hex dst b 0 b.length) 0 0 ((2 * b.length : Nat) : Int)).2.take
          b.length = b := by
  have hn : (((2 * b.length : Nat) : Int).toNat + 1) / 2 = b.length := by
    rw [Int.toNat_ofNat]; omega
  unfold hex_to_bin
  dsimp only
  rw [hn]
  refine ⟨rfl, ?_⟩
  have hm : copy_to_hex dst b 0 b.length = overwrite (hex_text b ++ [0]) dst := by
    unfold copy_to_hex
    rw [map_getD_range, copy_to_hex_chars_eq]
  have hl := hex_text_length b
  rw [hm, hex_to_bin_iter_take _ _ (by
    have := overwrite_length_le (hex_text b ++ [0]) dst
    rw [List.length_append] at this
    omega), take_overwrite _ _ _ (by rw [List.length_append]; omega),
    List.take_append_of_le_length (by omega), List.take_of_length_le (by omega),
    hex_decode_hex_text b hb]

/-- Witness of C18: the three bytes `C8 00 16`. -/
theorem hex_round_trip_witness :
    (hex_to_bin (copy_to_hex [] [0xC8, 0x00, 0x16] 0 3) 0 0 6).1 = 3
      ∧ (hex_to_bin (copy_to_hex [] [0xC8, 0x00, 0x16] 0 3) 0 0 6).2.take 3
        = [0xC8, 0x00, 0x16] :=
  hex_round_trip [0xC8, 0x00, 0x16] [] (by decide)

end Asn1

/-! ## Claims on `csim_send`: C19, C20 -/

namespace SimBootstrap

/-- The result of `csim_send` when both formatting steps fit, in terms of the
response buffer: for `rc < 0` it is `rc`; otherwise, if `rc = 2`, the length is at
least 4 and the four bytes at the positions `length - 4 .. length - 1` of the
response buffer are "9000", it is `length - 4`; in every other case it is `-EINVAL`.
When the reply text has at least `length` characters, those four bytes are
characters of the reply text; when it has fewer, they are what the buffer held
before the reply was stored. -/
theorem csim_send_result {σ : Type} (tr : Transport σ) (m : Modem σ) (c b : List Nat)
    (n : Int) (hfit : fits c n) :
    (csim_send tr m c b n).ret
        = (if (reply_to tr m c n).rc < 0 then (reply_to tr m c n).rc
          else if (reply_to tr m c n).rc = 2 ∧ 4 ≤ (reply_to tr m c n).length
              ∧ status_word (buffer_after tr m c b n) (reply_to tr m c n).length = str "9000"
            then (reply_to tr m c n).length - 4
          else -EINVAL)
      ∧ (4 ≤ (reply_to tr m c n).length →
          (reply_to tr m c n).length.toNat ≤ (reply_to tr m c n).response.length →
          status_word (buffer_after tr m c b n) (reply_to tr m c n).length
            = status_word (reply_to tr m c n).response (reply_to tr m c n).length) := by
  constructor
  · unfold fits at hfit
    unfold csim_send buffer_after reply_to
    dsimp only
    rw [if_neg (by omega), if_neg (by omega)]
    by_cases h1 : (tr m.st (at_text c) (csim_fmt n)).2.rc < 0
    · rw [if_pos h1, if_pos h1]
    · rw [if_neg h1, if_neg h1]
      by_cases h2 : (tr m.st (at_text c) (csim_fmt n)).2.rc = 2
          ∧ 4 ≤ (tr m.st (at_text c) (csim_fmt n)).2.length
          ∧ status_word (overwrite (tr m.st (at_text c) (csim_fmt n)).2.response
              (snprintf_write b n (at_text c))) (tr m.st (at_text c) (csim_fmt n)).2.length
            = str "9000"
      · rw [if_pos h2, if_neg (by
          rintro (h | h | h)
          · exact h h2.1
          · omega
          · exact h h2.2.2)]
      · rw [if_neg h2, if_pos (by
          by_contra hc
          apply h2
          refine ⟨?_, ?_, ?_⟩
          · by_contra h; exact hc (Or.inl h)
          · by_contra h; exact hc (Or.inr (Or.inl (by omega)))
          · by_contra h; exact hc (Or.inr (Or.inr h)))]
  · intro h4 hl
    unfold buffer_after
    rw [status_word_overwrite _ _ _ (by omega)]

/-- An instance of `csim_send_result`: the open command answered with the bare
status word gives 0. -/
theorem csim_send_result_witness :
    (csim_send bare_transport ⟨(), []⟩ cmd_open (List.replicate 261 0) 261).ret = 0 :=
  (csim_send_result bare_transport ⟨(), []⟩ cmd_open (List.replicate 261 0) 261
    (by decide)).1.trans (by decide)

/-- The result of `csim_send` for a reply whose text has at least the reported
number of characters: it is then given by `rc`, the reported length and the reply
text alone. -/
theorem csim_send_result_of_text {σ : Type} (tr : Transport σ) (m : Modem σ)
    (c b : List Nat) (n : Int) (hfit : fits c n)
    (hl : (reply_to tr m c n).length.toNat ≤ (reply_to tr m c n).response.length) :
    (csim_send tr m c b n).ret
      = (if (reply_to tr m c n).rc < 0 then (reply_to tr m c n).rc
        else if (reply_to tr m c n).rc = 2 ∧ 4 ≤ (reply_to tr m c n).length
            ∧ status_word (reply_to tr m c n).response (reply_to tr m c n).length = str "9000"
          then (reply_to tr m c n).length - 4
        else -EINVAL) := by
  obtain ⟨h1, h2⟩ := csim_send_result tr m c b n hfit
  rw [h1]
  by_cases h4 : 4 ≤ (reply_to tr m c n).length
  · rw [h2 h4 hl]
  · simp only [h4, false_and, and_false, if_false]

set_option maxRecDepth 100000 in
/-- C19 (the code departs from the claim): the four bytes compared with "9000" are
taken from the response buffer at the reported length, and the reported length is
not checked against the reply text. The buffer holds the command text until the
reply is stored over it, so with the reply `+CSIM: 30,"X"`, whose text has no
characters at the positions 26 .. 29, the comparison reads the command text: for
the select command of the path 9000, `AT+CSIM=20,"01A40804047FFF900000"`, whose
characters 26 .. 29 are "9000", `csim_send` returns 26, and for the select command
of the path 5031 it returns `-EINVAL`, although `rc`, the reported length and the
reply text are the same in both exchanges. -/
theorem csim_send_compares_command_text :
    fits (csim_select (str "9000")) 261 ∧ fits (csim_select (str "5031")) 261
      ∧ reply_to SimBootstrapTest.short_reply ⟨(), []⟩ (csim_select (str "9000")) 261
          = ⟨2, 30, str "X\"" ++ [0]⟩
      ∧ reply_to SimBootstrapTest.short_reply ⟨(), []⟩ (csim_select (str "5031")) 261
          = ⟨2, 30, str "X\"" ++ [0]⟩
      ∧ at_text (csim_select (str "9000")) = str "AT+CSIM=20,\"01A40804047FFF900000\""
      ∧ (buffer_after SimBootstrapTest.short_reply ⟨(), []⟩ (csim_select (str "9000"))
            (List.replicate 261 0) 261).take 34
          = str "X\"" ++ [0] ++ str "CSIM=20,\"01A40804047FFF900000\"" ++ [0]
      ∧ (csim_send SimBootstrapTest.short_reply ⟨(), []⟩ (csim_select (str "9000"))
            (List.replicate 261 0) 261).ret = 26
      ∧ (csim_send SimBootstrapTest.short_reply ⟨(), []⟩ (csim_select (str "5031"))
            (List.replicate 261 0) 261).ret = -EINVAL := by
  decide

theorem utoaAux_length_ge (d : Nat) : ∀ (fuel k : Nat), 10 ^ d ≤ k → d < fuel →
    d + 1 ≤ (utoaAux fuel k).length := by
  induction d with
  | zero =>
    intro fuel k _ hf
    obtain ⟨f, rfl⟩ : ∃ f, fuel = f + 1 := ⟨fuel - 1, by omega⟩
    have := utoaAux_length_pos f k
    omega
  | succ d ih =>
    intro fuel k hk hf
    obtain ⟨f, rfl⟩ : ∃ f, fuel = f + 1 := ⟨fuel - 1, by omega⟩
    have h10 : 10 ≤ k := by
      have : 10 ^ 1 ≤ 10 ^ (d + 1) := Nat.pow_le_pow_right (by decide) (by omega)
      omega
    unfold utoaAux
    rw [if_neg (by omega), List.length_append]
    have hk10 : 10 ^ d ≤ k / 10 := by
      rw [Nat.le_div_iff_mul_le (by decide)]
      rw [Nat.pow_succ] at hk
      exact hk
    have := ih f (k / 10) hk10 (by omega)
    simp only [List.length_cons, List.length_nil]
    omega

theorem csim_fmt_length (n : Int) : (csim_fmt n).length = 14 + (itoa (n - 1)).length := by
  simp [csim_fmt, str]
  omega

theorem csim_fmt_long (n : Int) (h : 100001 ≤ n) : 20 ≤ (csim_fmt n).length := by
  rw [csim_fmt_length]
  have h2 : 6 ≤ (itoa (n - 1)).length := by
    unfold itoa
    rw [if_neg (by omega)]
    unfold utoa
    have h5 : (10 : Nat) ^ 5 = 100000 := by decide
    exact utoaAux_length_ge 5 _ _ (by omega) (by omega)
  omega

theorem csim_send_not_fits {σ : Type} (tr : Transport σ) (m : Modem σ) (c b : List Nat)
    (n : Int) (h : ¬ fits c n) :
    (csim_send tr m c b n).ret = -EINVAL ∧ (csim_send tr m c b n).modem = m := by
  unfold fits at h
  unfold csim_send
  dsimp only
  by_cases h1 : ((csim_fmt n).length : Int) ≥ 20
  · rw [if_pos h1]
    exact ⟨rfl, rfl⟩
  · rw [if_neg h1, if_pos (by
      by_contra hc
      exact h ⟨by omega, by omega⟩)]
    exact ⟨rfl, rfl⟩

/-- C20: formatting errors are detected before any transport call: whenever the scan
format needs 20 or more characters (14 plus the characters of `buffer_size - 1` in
decimal, so 6 digits or more, as for every `buffer_size ≥ 100001`) or the text
`AT+CSIM=<strlen(cmd)>,"<cmd>"` needs `buffer_size` or more characters, `csim_send`
returns `-EINVAL` and the modem is untouched: no command was handed to the
transport. Consequently `sim_bootstrap_read` with `buffer_size ≤ 23` returns
`-EINVAL` after zero exchanges. -/
theorem formatting_errors_before_transport :
    (∀ (σ : Type) (tr : Transport σ) (m : Modem σ) (c b : List Nat) (n : Int),
        (20 ≤ (csim_fmt n).length ∨ n ≤ ((at_text c).length : Int)) →
        (csim_send tr m c b n).ret = -EINVAL ∧ (csim_send tr m c b n).modem = m)
      ∧ (∀ n : Int, (csim_fmt n).length = 14 + (itoa (n - 1)).length)
      ∧ (∀ n : Int, 100001 ≤ n → 20 ≤ (csim_fmt n).length)
      ∧ (∀ (σ : Type) (tr : Transport σ) (odf dodf : Decoder) (m : Modem σ) (b : List Nat)
          (n : Int), n ≤ 23 →
        (sim_bootstrap_read tr odf dodf m b n).ret = -EINVAL
          ∧ (sim_bootstrap_read tr odf dodf m b n).modem = m) := by
  refine ⟨?_, csim_fmt_length, csim_fmt_long, ?_⟩
  · intro σ tr m c b n h
    apply csim_send_not_fits
    intro hf
    have h1 := hf.1
    have h2 := hf.2
    omega
  · intro σ tr odf dodf m b n hn
    have hl : (at_text cmd_open).length = 23 := by decide
    have hnf : ¬ fits cmd_open n := fun hf => by
      have := hf.2
      omega
    obtain ⟨e1, e2⟩ := csim_send_not_fits tr m cmd_open b n hnf
    rw [sim_bootstrap_read_eq, if_pos (by rw [e1]; decide)]
    exact ⟨e1, e2⟩

/-- Witness of C20: a buffer size of 100001 for the scan format, one of 23 for the
command text of the open command. -/
theorem formatting_errors_before_transport_witness :
    ((csim_send bare_transport ⟨(), []⟩ cmd_open [] 100001).ret = -EINVAL
        ∧ (csim_send bare_transport ⟨(), []⟩ cmd_open [] 100001).modem = ⟨(), []⟩)
      ∧ ((sim_bootstrap_read bare_transport no_entry no_entry ⟨(), []⟩
            (List.replicate 23 0) 23).ret = -EINVAL
        ∧ (sim_bootstrap_read bare_transport no_entry no_entry ⟨(), []⟩
            (List.replicate 23 0) 23).modem = ⟨(), []⟩) :=
  ⟨formatting_errors_before_transport.1 Unit bare_transport ⟨(), []⟩ cmd_open [] 100001
      (Or.inl (by decide)),
    formatting_errors_before_transport.2.2.2 Unit bare_transport no_entry no_entry ⟨(), []⟩
      (List.replicate 23 0) 23 (by decide)⟩

end SimBootstrap

/-! ## Claims on the read command and on `hex_to_bin`: C21, C23, C24 -/

namespace SimBootstrap

theorem cstr_csim_read (n : Int) :
    cstr (csim_read n) =
      if n < 517 then
        str "01B00000"
          ++ [hexDigit ((Int.tdiv (n - 4) 2 % 256).toNat / 16),
              hexDigit ((Int.tdiv (n - 4) 2 % 256).toNat % 16)]
      else str "01B0000000" := by
  have hx : (Int.tdiv (n - 4) 2 % 256).toNat < 256 := by
    have := Int.emod_lt_of_pos (Int.tdiv (n - 4) 2) (by decide : (0 : Int) < 256)
    have := Int.emod_nonneg (Int.tdiv (n - 4) 2) (by decide : (256 : Int) ≠ 0)
    omega
  rw [csim_read_eq]
  have h517 : SIM_RECORD_BUFFER_MAX = 517 := rfl
  rw [h517]
  split_ifs
  · have h16 : (Int.tdiv (n - 4) 2 % 256).toNat / 16 % 16
        = (Int.tdiv (n - 4) 2 % 256).toNat / 16 := by omega
    simp [cstr, str, hex2, List.takeWhile_cons, hexDigit_ne_zero, h16]
  · decide

/-- C21: the read command built by `csim_read_file` is "01B00000" followed by the
two uppercase hex digits of `(buffer_size - 4) / 2` reduced to one byte (mod 256)
when `buffer_size < SIM_RECORD_BUFFER_MAX` (517), and the unmodified template
"01B0000000" when `buffer_size ≥ 517`; for `buffer_size = 261` it is
"01B0000080". -/
theorem read_command_text :
    SIM_RECORD_BUFFER_MAX = 517
      ∧ (∀ n : Int, cstr (csim_read n) =
          if n < 517 then
            str "01B00000"
              ++ [hexDigit ((Int.tdiv (n - 4) 2 % 256).toNat / 16),
                  hexDigit ((Int.tdiv (n - 4) 2 % 256).toNat % 16)]
          else str "01B0000000")
      ∧ (∀ n : Int, (Int.tdiv (n - 4) 2 % 256).toNat < 256)
      ∧ cstr (csim_read 261) = str "01B0000080" := by
  refine ⟨rfl, cstr_csim_read, ?_, by decide⟩
  intro n
  have := Int.emod_lt_of_pos (Int.tdiv (n - 4) 2) (by decide : (0 : Int) < 256)
  have := Int.emod_nonneg (Int.tdiv (n - 4) 2) (by decide : (256 : Int) ≠ 0)
  omega

/-- C23 (the code departs from the claim): with a buffer of 260 bytes the read
command is "01B0000080", asking for `Le = 128` bytes, and a full reply of
`2 * 128` hex characters, 4 status-word characters and the NUL needs 261 bytes;
with 516 bytes the last byte is 00, asking for 256 bytes, and a full reply needs
517 bytes. With the odd size 261 of the tests the request fits exactly. -/
theorem read_request_exceeds_even_buffer :
    (cstr (csim_read 260) = str "01B0000080" ∧ read_le 260 = 128
        ∧ ¬ (2 * read_le 260 + 4 + 1 ≤ 260))
      ∧ (cstr (csim_read 516) = str "01B0000000" ∧ read_le 516 = 256
        ∧ ¬ (2 * read_le 516 + 4 + 1 ≤ 516))
      ∧ (read_le 261 = 128 ∧ 2 * read_le 261 + 4 + 1 ≤ 261) := by
  decide

theorem read_le_eq (n : Int) (h6 : 6 ≤ n) (hn : n < 517) :
    read_le n = if (n - 4) / 2 = 256 then 256 else ((n - 4) / 2).toNat := by
  have ht : Int.tdiv (n - 4) 2 = (n - 4) / 2 := Int.tdiv_eq_ediv (by omega) (by decide)
  have hd : hex_decode ((cstr (csim_read n)).drop 8) = [(((n - 4) / 2) % 256).toNat] := by
    rw [cstr_csim_read, if_pos hn, ht]
    have hx : (((n - 4) / 2) % 256).toNat < 256 := by omega
    show hex_decode [hexDigit _, hexDigit _] = _
    rw [Asn1.hex_decode_cons_cons, Asn1.nibble_of_hexDigit _ (by omega),
      Asn1.nibble_of_hexDigit _ (by omega)]
    show [_] = [_]
    congr 1
    omega
  unfold read_le
  rw [hd]
  simp only [List.getD_cons_zero]
  split_ifs <;> omega

theorem read_le_fits_iff_odd (n : Int) (h6 : 6 ≤ n) (hn : n < 517) :
    ((2 * read_le n + 4 + 1 : Nat) : Int) ≤ n ↔ n % 2 = 1 := by
  rw [read_le_eq n h6 hn]
  split_ifs <;> omega

end SimBootstrap

namespace SimBootstrap

theorem hex_to_bin_iter_separate (s d : List Nat) (n j : Nat) (h : 2 * n ≤ s.length) :
    (hex_to_bin_iter s.length 0 n (s ++ d))[j]? =
      if s.length ≤ j ∧ j < s.length + n ∧ j < s.length + d.length then
        some ((hex_to_nibble (s.getD (2 * (j - s.length)) 0) * 16
          + hex_to_nibble (s.getD (2 * (j - s.length) + 1) 0)) % 256)
      else (s ++ d)[j]? := by
  induction n generalizing j with
  | zero =>
    simp only [hex_to_bin_iter]
    rw [if_neg (by omega)]
  | succ k ih =>
    have e0 : (hex_to_bin_iter s.length 0 k (s ++ d))[2 * k]? = s[2 * k]? := by
      rw [ih (2 * k) (by omega), if_neg (by omega), List.getElem?_append_left (by omega)]
    have e1 : (hex_to_bin_iter s.length 0 k (s ++ d))[2 * k + 1]? = s[2 * k + 1]? := by
      rw [ih (2 * k + 1) (by omega), if_neg (by omega), List.getElem?_append_left (by omega)]
    simp only [hex_to_bin_iter, Nat.zero_add, List.getD_eq_getElem?_getD, e0, e1]
    rw [List.getElem?_set, hex_to_bin_iter_length, List.length_append]
    by_cases hkj : s.length + k = j
    · subst hkj
      rw [if_pos rfl]
      have hsub : s.length + k - s.length = k := by omega
      by_cases hk : k < d.length
      · rw [if_pos (by omega), if_pos ⟨by omega, by omega, by omega⟩, hsub]
      · rw [if_neg (by omega), if_neg (by omega)]
        exact (List.getElem?_eq_none (by rw [List.length_append]; omega)).symm
    · rw [if_neg hkj, ih j (by omega)]
      by_cases hj : s.length ≤ j ∧ j < s.length + k ∧ j < s.length + d.length
      · rw [if_pos hj, if_pos ⟨hj.1, by omega, hj.2.2⟩]
        simp [List.getD_eq_getElem?_getD]
      · rw [if_neg hj, if_neg (by omega)]

theorem hex_to_bin_iter_separate_take (s d : List Nat) (n : Nat) (h : 2 * n ≤ s.length)
    (hd : n ≤ d.length) :
    ((hex_to_bin_iter s.length 0 n (s ++ d)).drop s.length).take n
        = hex_decode (s.take (2 * n))
      ∧ (hex_to_bin_iter s.length 0 n (s ++ d)).take s.length = s := by
  constructor
  · apply List.ext_getElem?
    intro j
    rw [List.getElem?_take, List.getElem?_drop, hex_to_bin_iter_separate s d n _ h]
    unfold hex_decode
    have hl : (s.take (2 * n)).length / 2 = n := by
      rw [List.length_take, Nat.min_eq_left h]; omega
    rw [hl, List.getElem?_map]
    by_cases hj : j < n
    · rw [if_pos hj, if_pos ⟨by omega, by omega, by omega⟩, List.getElem?_range hj]
      have hsub : s.length + j - s.length = j := by omega
      simp only [Option.map_some', List.getD_eq_getElem?_getD, hsub]
      rw [List.getElem?_take, List.getElem?_take, if_pos (by omega), if_pos (by omega)]
    · rw [if_neg hj, List.getElem?_eq_none (by simpa using Nat.le_of_not_lt hj)]
      rfl
  · apply List.ext_getElem?
    intro j
    rw [List.getElem?_take, hex_to_bin_iter_separate s d n _ h]
    by_cases hj : j < s.length
    · rw [if_pos hj, if_neg (by omega), List.getElem?_append_left hj]
    · rw [if_neg hj, List.getElem?_eq_none (by omega)]

/-- C24: for every even `len` and every input of `len` characters, `hex_to_bin` run
in place (source and destination the same buffer `s`, as in `csim_read_file`) and
`hex_to_bin` run with a separate destination buffer `d` (of at least `len / 2`
bytes, laid out behind `s`) return the same value, `len / 2`, and give the same first
`len / 2` output bytes, the hex decoding of the input; the separate run leaves the
source as it was. -/
theorem hex_to_bin_in_place (s d : List Nat) (len : Nat) (heven : len % 2 = 0)
    (hs : len ≤ s.length) (hd : len / 2 ≤ d.length) :
    (hex_to_bin s 0 0 (len : Int)).1 = (hex_to_bin (s ++ d) s.length 0 (len : Int)).1
      ∧ (hex_to_bin s 0 0 (len : Int)).1 = ((len / 2 : Nat) : Int)
      ∧ (hex_to_bin s 0 0 (len : Int)).2.take (len / 2)
        = ((hex_to_bin (s ++ d) s.length 0 (len : Int)).2.drop s.length).take (len / 2)
      ∧ (hex_to_bin s 0 0 (len : Int)).2.take (len / 2) = hex_decode (s.take len)
      ∧ (hex_to_bin (s ++ d) s.length 0 (len : Int)).2.take s.length = s := by
  have hn : ((len : Int).toNat + 1) / 2 = len / 2 := by
    rw [Int.toNat_ofNat]; omega
  have h2 : 2 * (len / 2) = len := by omega
  unfold hex_to_bin
  dsimp only
  rw [hn]
  obtain ⟨e1, e2⟩ := hex_to_bin_iter_separate_take s d (len / 2) (by omega) hd
  have e3 := hex_to_bin_iter_take s (len / 2) (by omega)
  rw [h2] at e1 e3
  exact ⟨rfl, rfl, by rw [e1, e3], e3, e2⟩

/-- Witness of C24: the six characters `C80016` with the rest of a reply behind
them, and a destination of four bytes. -/
theorem hex_to_bin_in_place_witness :
    (hex_to_bin (str "C800169000") 0 0 6).2.take 3 = [0xC8, 0x00, 0x16]
      ∧ ((hex_to_bin (str "C800169000" ++ [9, 9, 9, 9]) 10 0 6).2.drop 10).take 3
        = [0xC8, 0x00, 0x16] :=
  ⟨(hex_to_bin_in_place (str "C800169000") [9, 9, 9, 9] 6 (by decide) (by decide)
      (by decide)).2.2.2.1.trans (by decide),
    ((hex_to_bin_in_place (str "C800169000") [9, 9, 9, 9] 6 (by decide) (by decide)
      (by decide)).2.2.1.symm).trans
      ((hex_to_bin_in_place (str "C800169000") [9, 9, 9, 9] 6 (by decide) (by decide)
        (by decide)).2.2.2.1.trans (by decide))⟩

end SimBootstrap

/-! ## Claims on the decoding primitives: C22, C25, C26, C27 -/

namespace Asn1

open SimBootstrap

/-- C22: walking the EF(ODF) test vector `A7 06 30 04 04 02 64 30` with the decoding
primitives yields the path "6430": `asn1_dec_head` on the 8-byte buffer gives tag
`0xA7` and `len = 6` at offset 2; in the 6-byte sub-context of `asn1_dec_sequence`
`asn1_dec_head` gives `(0x30, 4)`; in that 4-byte sub-context `asn1_dec_head` gives
`(0x04, 2)` and `asn1_dec_octet_string` with capacity 5 writes "6430" and a NUL; no
error flag is set at any level and every context ends with `offset = length`. -/
theorem odf_vector_walk :
    asn1_dec_head ⟨ef_odf_bytes, 8, 0, false⟩ 0 0
        = ⟨true, ⟨ef_odf_bytes, 8, 2, false⟩, 0xA7, 6⟩
      ∧ asn1_dec_head ⟨ef_odf_bytes.drop 2, 6, 0, false⟩ 0 0
        = ⟨true, ⟨ef_odf_bytes.drop 2, 6, 2, false⟩, 0x30, 4⟩
      ∧ asn1_dec_head ⟨(ef_odf_bytes.drop 2).drop 2, 4, 0, false⟩ 0 0
        = ⟨true, ⟨(ef_odf_bytes.drop 2).drop 2, 4, 2, false⟩, 0x04, 2⟩
      ∧ asn1_dec_octet_string ⟨(ef_odf_bytes.drop 2).drop 2, 4, 2, false⟩ 2 [0, 0, 0, 0, 0] 5
        = (⟨(ef_odf_bytes.drop 2).drop 2, 4, 4, false⟩, str "6430" ++ [0])
      ∧ walk_path ⟨(ef_odf_bytes.drop 2).drop 2, 4, 0, false⟩ [0, 0, 0, 0, 0]
        = (⟨(ef_odf_bytes.drop 2).drop 2, 4, 4, false⟩, str "6430" ++ [0])
      ∧ walk_entry ⟨ef_odf_bytes.drop 2, 6, 0, false⟩ [0, 0, 0, 0, 0]
        = (⟨ef_odf_bytes.drop 2, 6, 6, false⟩, str "6430" ++ [0])
      ∧ walk_odf ⟨ef_odf_bytes, 8, 0, false⟩ [0, 0, 0, 0, 0]
        = (⟨ef_odf_bytes, 8, 8, false⟩, str "6430" ++ [0]) := by
  decide

/-- C25 (fails as stated): on the buffer `30 80 00 00` the length byte `0x80` has
its high bit set and its low 7 bits are 0; `asn1_dec_head` does not reject this
header: it returns true with `len = 0`, the offset at 2 and the error flag clear. -/
theorem indefinite_length_accepted :
    asn1_dec_head ⟨[0x30, 0x80, 0x00, 0x00], 4, 0, false⟩ 0 0
      = ⟨true, ⟨[0x30, 0x80, 0x00, 0x00], 4, 2, false⟩, 0x30, 0⟩ := by
  decide

/-- C25 (amended): a header whose length byte has its high bit set is accepted only
when its low 7 bits `n` satisfy `n ≤ 3`: for every `n > 3` `asn1_dec_head` returns
false and sets the error flag; for `n = 0` (length byte `0x80`) the header is read
as a long form without length octets: when its tag is supported and at least two
bytes of the buffer follow it, `asn1_dec_head` returns true with `len = 0`. -/
theorem asn1_dec_head_long_form_limits (ctx : asn1_ctx_t) (tag len : Nat)
    (herr : ctx.error = false) (hunread : ctx.offset + 2 ≤ ctx.length)
    (hlong : ctx.byte (ctx.offset + 1) &&& 0x80 ≠ 0) :
    (3 < ctx.byte (ctx.offset + 1) &&& 0x7F →
        (asn1_dec_head ctx tag len).ok = false ∧ (asn1_dec_head ctx tag len).ctx.error = true)
      ∧ ((asn1_dec_head ctx tag len).ok = true → ctx.byte (ctx.offset + 1) &&& 0x7F ≤ 3)
      ∧ (ctx.byte (ctx.offset + 1) &&& 0x7F = 0 → ctx.byte ctx.offset &&& 0x1F ≠ 0x1F →
          ctx.offset + 4 ≤ ctx.length →
          asn1_dec_head ctx tag len
            = ⟨true, ⟨ctx.asnbuf, ctx.length, ctx.offset + 2, false⟩, ctx.byte ctx.offset, 0⟩) := by
  have hn : length_octets ctx = ctx.byte (ctx.offset + 1) &&& 0x7F := by
    unfold length_octets; rw [if_pos hlong]
  have h0 : ¬ (ctx.error = true ∨ ctx.offset + 2 > ctx.length) := by
    rw [herr]; simp; omega
  have big : 3 < ctx.byte (ctx.offset + 1) &&& 0x7F →
      (asn1_dec_head ctx tag len).ok = false
        ∧ (asn1_dec_head ctx tag len).ctx.error = true := by
    intro h3
    rw [asn1_dec_head_eq, if_neg h0]
    by_cases h1 : ctx.byte ctx.offset &&& 0x1F = 0x1F
    · rw [if_pos h1]; exact ⟨rfl, rfl⟩
    · rw [if_neg h1, if_pos hlong, if_pos (Or.inl (by omega))]; exact ⟨rfl, rfl⟩
  refine ⟨big, ?_, ?_⟩
  · intro hok
    by_contra hc
    have := (big (by omega)).1
    rw [hok] at this
    exact absurd this (by decide)
  · intro hz htag h4
    have hd : declared_length ctx = 0 := by
      unfold declared_length
      rw [if_pos hlong, hn, hz]
      rfl
    rw [asn1_dec_head_eq, if_neg h0, if_neg htag, if_pos hlong, if_neg (by omega),
      if_neg (by omega), hn, hz, hd, herr]

/-- Witness of C25 (amended): the length bytes `0x84` and `0x80`. -/
theorem asn1_dec_head_long_form_limits_witness :
    ((asn1_dec_head ⟨[0x30, 0x84, 0, 0, 0, 1, 0xAA], 7, 0, false⟩ 0 0).ok = false
        ∧ (asn1_dec_head ⟨[0x30, 0x84, 0, 0, 0, 1, 0xAA], 7, 0, false⟩ 0 0).ctx.error = true)
      ∧ asn1_dec_head ⟨[0x30, 0x80, 0x00, 0x00], 4, 0, false⟩ 7 9
        = ⟨true, ⟨[0x30, 0x80, 0x00, 0x00], 4, 2, false⟩, 0x30, 0⟩ :=
  ⟨(asn1_dec_head_long_form_limits ⟨[0x30, 0x84, 0, 0, 0, 1, 0xAA], 7, 0, false⟩ 0 0 rfl
      (by decide) (by decide)).1 (by decide),
    (asn1_dec_head_long_form_limits ⟨[0x30, 0x80, 0x00, 0x00], 4, 0, false⟩ 7 9 rfl
      (by decide) (by decide)).2.2 (by decide) (by decide) (by decide)⟩

/-- C26 (the code departs from the claim): with `len = 4` and `max_len = 5` the check
`len >= max_len` passes, the error flag stays clear, and `asn1_dec_octet_string`
writes the 8 hex characters "01020304" and the NUL: 9 bytes for a capacity of 5. -/
theorem octet_string_overruns_capacity :
    (asn1_dec_octet_string ⟨[1, 2, 3, 4], 4, 0, false⟩ 4 [0, 0, 0, 0, 0] 5).1.error = false
      ∧ (asn1_dec_octet_string ⟨[1, 2, 3, 4], 4, 0, false⟩ 4 [0, 0, 0, 0, 0] 5).2
        = str "01020304" ++ [0]
      ∧ (asn1_dec_octet_string ⟨[1, 2, 3, 4], 4, 0, false⟩ 4 [0, 0, 0, 0, 0] 5).2.length = 9
      ∧ ¬ (2 * 4 + 1 ≤ 5) := by
  decide

/-- C27: when the error flag is clear and fewer than two unread bytes remain
(`offset + 2 > length`), `asn1_dec_head` returns false without setting the error
flag and without changing the offset or the caller's `tag` and `len`. -/
theorem asn1_dec_head_end_of_data (ctx : asn1_ctx_t) (tag len : Nat)
    (herr : ctx.error = false) (hend : ctx.offset + 2 > ctx.length) :
    asn1_dec_head ctx tag len = ⟨false, ctx, tag, len⟩
      ∧ (asn1_dec_head ctx tag len).ok = false
      ∧ (asn1_dec_head ctx tag len).ctx.error = false
      ∧ (asn1_dec_head ctx tag len).ctx.offset = ctx.offset
      ∧ (asn1_dec_head ctx tag len).tag = tag
      ∧ (asn1_dec_head ctx tag len).len = len := by
  rw [asn1_dec_head_eq, if_pos (Or.inr hend)]
  exact ⟨rfl, rfl, herr, rfl, rfl, rfl⟩

/-- Witness of C27: the context of the EF(ODF) test vector once all 8 bytes are
read. -/
theorem asn1_dec_head_end_of_data_witness :
    asn1_dec_head ⟨ef_odf_bytes, 8, 8, false⟩ 0xA7 6
      = ⟨false, ⟨ef_odf_bytes, 8, 8, false⟩, 0xA7, 6⟩ :=
  (asn1_dec_head_end_of_data ⟨ef_odf_bytes, 8, 8, false⟩ 0xA7 6 rfl (by decide)).1

end Asn1

/-! ## Claim on positive results: C28 -/

namespace SimBootstrap

open SimBootstrapTest

theorem Run.succeeds_of_pos {σ : Type} (r : Run σ) (hpos : 0 < r.result.ret) :
    r.succeeds ∧ 0 ≤ r.closed.ret := by
  have h1 : 0 < r.opened.ret := by
    by_contra hc
    have e : r.result = r.opened := by
      unfold Run.result Run.opened at *
      rw [sim_bootstrap_read_eq, if_pos (by omega)]
    rw [e] at hpos
    exact hc hpos
  have hr := r.result_eq h1 _ rfl
  generalize hp : pending r.tr r.odf r.dodf r.m r.p_buffer r.buffer_size = p at hr
  have hpp : 0 < p.ret ∧ 0 ≤ (close_send r.tr p.modem).ret := by
    by_cases hc : p.ret ≥ 0 ∧ (close_send r.tr p.modem).ret < 0
    · rw [if_pos hc] at hr
      rw [hr] at hpos
      have := hc.2
      dsimp only at hpos
      omega
    · rw [if_neg hc] at hr
      rw [hr] at hpos
      dsimp only at hpos
      exact ⟨hpos, by omega⟩
  rw [r.pending_eq] at hp
  have h2 : 0 < r.app.ret := by
    by_contra hc
    rw [if_neg (by omega)] at hp
    rw [← hp] at hpp
    exact hc hpp.1
  rw [if_pos h2, r.records_eq] at hp
  have h3 : 0 < r.odf_file.ret := by
    by_contra hc
    rw [if_pos (by omega)] at hp
    rw [← hp] at hpp
    exact hc hpp.1
  rw [if_neg (by omega)] at hp
  have h45 : ¬ (r.odf_path.1 = false ∨ r.odf_path.2.getD 0 0 = 0) := by
    intro hc
    rw [if_pos hc] at hp
    rw [← hp] at hpp
    exact absurd hpp.1 (by show ¬ (0 : Int) < -ENOENT; decide)
  rw [if_neg h45] at hp
  have h6 : 0 < r.dodf_file.ret := by
    by_contra hc
    rw [if_pos (by omega)] at hp
    rw [← hp] at hpp
    exact hc hpp.1
  rw [if_neg (by omega)] at hp
  have h78 : ¬ (r.dodf_path.1 = false ∨ r.dodf_path.2.getD 0 0 = 0) := by
    intro hc
    rw [if_pos hc] at hp
    rw [← hp] at hpp
    exact absurd hpp.1 (by show ¬ (0 : Int) < -ENOENT; decide)
  rw [if_neg h78] at hp
  rw [← hp] at hpp
  refine ⟨⟨h1, h2, h3, ?_, fun h => h45 (Or.inr h), h6, ?_, fun h => h78 (Or.inr h), hpp.1⟩,
    hpp.2⟩
  · by_contra hc
    exact h45 (Or.inl (by simpa using hc))
  · by_contra hc
    exact h78 (Or.inl (by simpa using hc))

/-- C28: `sim_bootstrap_read` returns a strictly positive value only if all nine
exchanges were issued (open, application select, three select/read pairs, close),
each of the first eight returned a positive length and both path decoders returned
true with a path whose first character is not NUL; in every run in which one of
these steps does not succeed the result is `≤ 0`. -/
theorem positive_result_needs_all_steps {σ : Type} (r : Run σ) :
    (0 < r.result.ret →
        0 < r.opened.ret ∧ 0 < r.app.ret
          ∧ 0 < r.odf_select.ret ∧ 0 < r.odf_read.ret
          ∧ r.odf_path.1 = true ∧ r.odf_path.2.getD 0 0 ≠ 0
          ∧ 0 < r.dodf_select.ret ∧ 0 < r.dodf_read.ret
          ∧ r.dodf_path.1 = true ∧ r.dodf_path.2.getD 0 0 ≠ 0
          ∧ 0 < r.boot_select.ret ∧ 0 < r.boot_read.ret
          ∧ r.result.modem.sent = r.m.sent ++
            [at_text cmd_open, at_text cmd_select_app,
              at_text (csim_select (str "5031")), at_text (csim_read r.buffer_size),
              at_text (csim_select r.odf_path.2), at_text (csim_read r.buffer_size),
              at_text (csim_select r.dodf_path.2), at_text (csim_read r.buffer_size),
              at_text cmd_close])
      ∧ (¬ r.succeeds → r.result.ret ≤ 0) := by
  constructor
  · intro hpos
    obtain ⟨hs, -⟩ := r.succeeds_of_pos hpos
    have hsent := r.sent_of_succeeds hs
    obtain ⟨h1, h2, h3, h4, h5, h6, h7, h8, h9⟩ := hs
    obtain ⟨a1, a2, -⟩ := csim_read_file_pos r.tr r.app.modem (str "5031") r.app.buf
      r.buffer_size h3
    obtain ⟨b1, b2, -⟩ := csim_read_file_pos r.tr r.odf_file.modem r.odf_path.2 r.odf_file.buf
      r.buffer_size h6
    obtain ⟨c1, c2, -⟩ := r.boot_file_of_pos h9
    exact ⟨h1, h2, a1, a2, h4, h5, b1, b2, h7, h8, c1, c2, hsent⟩
  · intro hns
    by_contra hc
    exact hns (r.succeeds_of_pos (by omega)).1

set_option maxRecDepth 100000 in
/-- Witness of C28: the reference run of the success transcript, whose result is 52,
and the reference run of the not-found transcript, whose result is `-ENOENT`. -/
theorem positive_result_needs_all_steps_witness :
    0 < (ref_run at_csim_success).boot_read.ret
      ∧ (ref_run at_csim_bootstrap_not_found).result.ret ≤ 0 :=
  ⟨((positive_result_needs_all_steps (ref_run at_csim_success)).1 (by decide)).2.2.2.2.2.2.2.2.2.2.2.1,
    (positive_result_needs_all_steps (ref_run at_csim_bootstrap_not_found)).2 (by decide)⟩

end SimBootstrap
